import Mathlib

/-!
Verification of the session / user-context persistence layer, the chat turn
orchestrator and the generative-UI structured response contract of the
InvestPal backend.

The Python services are shallowly embedded: the MongoDB collections become
lists of document structures inside a `Store`, every service method becomes a
pure function `Store → args → Store × Except RepoError α` (an exception is an
`Except.error` result, and the store component of the pair is the state of the
database when the call returns, so "raises without writing" is literally
"returns the unchanged store together with an error"), and JSON documents
become values of an inductive `Jx` type.  The external language-model call is
a function parameter of the orchestrator, since the orchestrator's contract
quantifies over its success or failure.
-/

/-- JSON-like values, the embedding of Python dict/list/str/float/bool/None
payloads (`float` is embedded as `Rat`; no claim performs float arithmetic). -/
inductive Jx where
  | null : Jx
  | bool (b : Bool) : Jx
  | num (q : Rat) : Jx
  | str (s : String) : Jx
  | arr (xs : List Jx) : Jx
  | obj (fields : List (String × Jx)) : Jx

/-- Python dict with string keys, as stored in `user_profile` / `metadata`. -/
abbrev JDict := List (String × Jx)

/-- models/session.py: MessageRole enum. -/
inductive MessageRole where
  | user : MessageRole
  | agent : MessageRole
deriving DecidableEq

/-- models/session.py: Message. -/
structure Message where
  role : MessageRole
  content : String
  created_at : Option String := none
deriving DecidableEq

/-- models/session.py: Session. -/
structure Session where
  session_id : String
  user_id : String
  messages : List Message
deriving DecidableEq

/-- models/user_context.py: UserPortfolioHolding (quantity is a float in the
source, embedded as `Rat`).  services/user_context.py defines
`UserPortfolioHoldingMongoDoc` with exactly the same four fields and the
services copy field-by-field between the two, so one Lean structure stands for
both. -/
structure UserPortfolioHolding where
  asset_class : String
  symbol : String
  name : String
  quantity : Rat
deriving DecidableEq

/-- models/user_context.py: UserContext (user_profile is an open dict). -/
structure UserContext where
  user_id : String
  user_profile : JDict
  user_portfolio : List UserPortfolioHolding
  created_at : Option String := none
  updated_at : Option String := none

/-- services/user_context.py: UserContextMongoDoc, the document shape stored
in the user-context collection.  Field names matter: the stored key is
`user_id` (see `UserContextMongoDoc.lookupStr`). -/
structure UserContextMongoDoc where
  user_id : String
  user_profile : JDict
  user_portfolio : List UserPortfolioHolding
  created_at : Option String := none
  updated_at : Option String := none

/-- services/session.py: SessionMongoDoc, the stored session document; its
`MessageMongoDoc` entries are field-for-field identical to `Message`. -/
structure SessionMongoDoc where
  sessionID : String
  user_id : String
  messages : List Message

/-- The two MongoDB collections the services touch, as in-memory lists
(insertion order preserved; `find_one` returns the first match). -/
structure Store where
  user_contexts : List UserContextMongoDoc
  sessions : List SessionMongoDoc

/-- The error taxonomy of errors/user_context.py and errors/session.py.
The message strings carried by the Python exceptions are not modelled; no
claim inspects them. -/
inductive RepoError where
  | userContextNotFoundError : RepoError
  | userContextAlreadyExistsError : RepoError
  | sessionNotFoundError : RepoError
  | sessionAlreadyExistsError : RepoError
deriving DecidableEq

/-- String-valued field lookup on a stored user-context document, embedding a
MongoDB filter `{field: value}` with a string `value`: a document matches iff
it has that field and the field equals the value.  A field name the document
does not carry (MongoDB treats it as missing/null) never matches a string
value.  The two string-typed fields `created_at`/`updated_at` are also exposed
for completeness; the source only ever filters on `user_id` (user-context
service) and `userid` (session service, see `create_session`). -/
def UserContextMongoDoc.lookupStr (d : UserContextMongoDoc) (field : String) : Option String :=
  if field = "user_id" then some d.user_id
  else if field = "created_at" then d.created_at
  else if field = "updated_at" then d.updated_at
  else none

/-- Embeds `user_context_collection.find_one({field: value})`. -/
def findUserContext (st : Store) (field value : String) : Option UserContextMongoDoc :=
  st.user_contexts.find? (fun d => d.lookupStr field == some value)

/-- services/user_context.py: MongoDBUserContextService.create_user_context.
`now` is the `dt.datetime.now` value used for the stored document's
`created_at`; the source calls `dt.datetime.now` a second time when building
the returned model, embedded as the separate `nowRet`. -/
def create_user_context (st : Store) (user_id : String)
    (user_profile : Option JDict) (user_portfolio : Option (List UserPortfolioHolding))
    (now nowRet : String) : Store × Except RepoError UserContext :=
  match findUserContext st "user_id" user_id with
  | some _ => (st, .error .userContextAlreadyExistsError)
  | none =>
    let doc : UserContextMongoDoc :=
      { user_id := user_id
        user_profile := user_profile.getD []
        user_portfolio := user_portfolio.getD []
        created_at := some now
        updated_at := none }
    ({ st with user_contexts := st.user_contexts ++ [doc] },
     .ok { user_id := user_id
           user_profile := user_profile.getD []
           user_portfolio := user_portfolio.getD []
           created_at := some nowRet
           updated_at := none })

/-- services/user_context.py: MongoDBUserContextService.get_user_context. -/
def get_user_context (st : Store) (user_id : String) : Option UserContext :=
  match findUserContext st "user_id" user_id with
  | none => none
  | some d =>
    some { user_id := d.user_id
           user_profile := d.user_profile
           user_portfolio := d.user_portfolio
           created_at := d.created_at
           updated_at := d.updated_at }

/-- Embeds `find_one_and_update({"user_id": uid}, {"$set": {user_profile,
user_portfolio, updated_at}}, return_document=AFTER)`: replaces those three
fields on the first matching document and returns the updated document, or
returns `none` leaving the list unchanged when no document matches. -/
def setUserContextFields (user_id : String) (profile : JDict)
    (portfolio : List UserPortfolioHolding) (now : String) :
    List UserContextMongoDoc → List UserContextMongoDoc × Option UserContextMongoDoc
  | [] => ([], none)
  | d :: ds =>
    if d.user_id == user_id then
      let d' := { d with user_profile := profile, user_portfolio := portfolio,
                         updated_at := some now }
      (d' :: ds, some d')
    else
      let r := setUserContextFields user_id profile portfolio now ds
      (d :: r.1, r.2)

/-- services/user_context.py: MongoDBUserContextService.update_user_context.
The `$set` document is the dump of a fresh `UserContextMongoDoc` excluding
`user_id` and `created_at`, so it consists of the (defaulted) profile, the
(defaulted) portfolio, and `updated_at = now`. -/
def update_user_context (st : Store) (user_id : String)
    (user_profile : Option JDict) (user_portfolio : Option (List UserPortfolioHolding))
    (now : String) : Store × Except RepoError UserContext :=
  let r := setUserContextFields user_id (user_profile.getD []) (user_portfolio.getD [])
             now st.user_contexts
  match r.2 with
  | none => (st, .error .userContextNotFoundError)
  | some d' =>
    ({ st with user_contexts := r.1 },
     .ok { user_id := d'.user_id
           user_profile := d'.user_profile
           user_portfolio := d'.user_portfolio
           created_at := d'.created_at
           updated_at := d'.updated_at })

/-- services/session.py: MongoDBSessionService.get_session
(`find_one({"sessionID": session_id})`, mapped back to the Session model). -/
def get_session (st : Store) (session_id : String) : Option Session :=
  match st.sessions.find? (fun d => d.sessionID == session_id) with
  | none => none
  | some d => some { session_id := d.sessionID, user_id := d.user_id, messages := d.messages }

/-- services/session.py: MongoDBSessionService.create_session.  `freshId`
stands for the `str(uuid.uuid4())` drawn when the caller supplies no id.
The branch on the supplied id embeds Python truthiness (`if session_id:`),
under which both `None` and the empty string take the generated-id branch.
The referential check is embedded exactly as written in the source: it filters
the user-context collection on the field name `userid`, while stored
user-context documents carry the field `user_id` (see
`UserContextMongoDoc.lookupStr`). -/
def create_session (st : Store) (user_id : String) (session_id : Option String)
    (freshId : String) : Store × Except RepoError Session :=
  let chosen : Except RepoError String :=
    match session_id with
    | some s =>
      if s ≠ "" then
        match get_session st s with
        | some _ => .error .sessionAlreadyExistsError
        | none => .ok s
      else .ok freshId
    | none => .ok freshId
  match chosen with
  | .error e => (st, .error e)
  | .ok sid =>
    match findUserContext st "userid" user_id with
    | none => (st, .error .userContextNotFoundError)
    | some _ =>
      let doc : SessionMongoDoc := { sessionID := sid, user_id := user_id, messages := [] }
      ({ st with sessions := st.sessions ++ [doc] },
       .ok { session_id := sid, user_id := user_id, messages := [] })

/-- Embeds `update_one({"sessionID": sid}, {"$push": {"messages": m}})`:
appends the message to the first matching session document. -/
def pushMessage (session_id : String) (m : Message) :
    List SessionMongoDoc → List SessionMongoDoc
  | [] => []
  | d :: ds =>
    if d.sessionID == session_id then { d with messages := d.messages ++ [m] } :: ds
    else d :: pushMessage session_id m ds

/-- services/session.py: MongoDBSessionService.add_message.  Reads the session
(raising SessionNotFoundError on a miss), pushes the message into the stored
document, and returns the in-memory session with the message appended. -/
def add_message (st : Store) (session_id : String) (message : Message) :
    Store × Except RepoError Session :=
  match get_session st session_id with
  | none => (st, .error .sessionNotFoundError)
  | some session =>
    ({ st with sessions := pushMessage session_id message st.sessions },
     .ok { session with messages := session.messages ++ [message] })

/-- models/gen_ui_models.py: ComponentType, the 17-value discriminator enum.
Note two of its values (`super_investor_card`, `crypto_card`) have no
corresponding component class in the `GenerativeUIResponseFormat` union. -/
inductive ComponentType where
  | text
  | security_card
  | metrics_grid
  | portfolio_holdings
  | sector_performance
  | time_series_chart
  | news_feed
  | comparison_table
  | financial_statement
  | investment_calculator
  | super_investor_card
  | allocation_chart
  | economic_indicator
  | crypto_card
  | alert
  | insights
  | action_suggestions
deriving DecidableEq

/-- The string value of a ComponentType member (the enum is a str-Enum, so
this is what json.dumps writes and what pydantic accepts). -/
def ComponentType.toStr : ComponentType → String
  | .text => "text"
  | .security_card => "security_card"
  | .metrics_grid => "metrics_grid"
  | .portfolio_holdings => "portfolio_holdings"
  | .sector_performance => "sector_performance"
  | .time_series_chart => "time_series_chart"
  | .news_feed => "news_feed"
  | .comparison_table => "comparison_table"
  | .financial_statement => "financial_statement"
  | .investment_calculator => "investment_calculator"
  | .super_investor_card => "super_investor_card"
  | .allocation_chart => "allocation_chart"
  | .economic_indicator => "economic_indicator"
  | .crypto_card => "crypto_card"
  | .alert => "alert"
  | .insights => "insights"
  | .action_suggestions => "action_suggestions"

/-- Pydantic validation of a string against the ComponentType enum. -/
def ComponentType.ofStr : String → Option ComponentType
  | "text" => some .text
  | "security_card" => some .security_card
  | "metrics_grid" => some .metrics_grid
  | "portfolio_holdings" => some .portfolio_holdings
  | "sector_performance" => some .sector_performance
  | "time_series_chart" => some .time_series_chart
  | "news_feed" => some .news_feed
  | "comparison_table" => some .comparison_table
  | "financial_statement" => some .financial_statement
  | "investment_calculator" => some .investment_calculator
  | "super_investor_card" => some .super_investor_card
  | "allocation_chart" => some .allocation_chart
  | "economic_indicator" => some .economic_indicator
  | "crypto_card" => some .crypto_card
  | "alert" => some .alert
  | "insights" => some .insights
  | "action_suggestions" => some .action_suggestions
  | _ => none

theorem componentType_ofStr_toStr (t : ComponentType) : ComponentType.ofStr t.toStr = some t := by
  cases t <;> rfl

/-- models/gen_ui_models.py: TextFormat. -/
inductive TextFormat where
  | plain
  | markdown
deriving DecidableEq

def TextFormat.toStr : TextFormat → String
  | .plain => "plain"
  | .markdown => "markdown"

def TextFormat.ofStr : String → Option TextFormat
  | "plain" => some .plain
  | "markdown" => some .markdown
  | _ => none

theorem textFormat_ofStr_toStr (t : TextFormat) : TextFormat.ofStr t.toStr = some t := by
  cases t <;> rfl

/-- models/gen_ui_models.py: AssetType. -/
inductive AssetType where
  | stock
  | etf
  | crypto
  | commodity
  | index
deriving DecidableEq

def AssetType.toStr : AssetType → String
  | .stock => "stock"
  | .etf => "etf"
  | .crypto => "crypto"
  | .commodity => "commodity"
  | .index => "index"

def AssetType.ofStr : String → Option AssetType
  | "stock" => some .stock
  | "etf" => some .etf
  | "crypto" => some .crypto
  | "commodity" => some .commodity
  | "index" => some .index
  | _ => none

theorem assetType_ofStr_toStr (t : AssetType) : AssetType.ofStr t.toStr = some t := by
  cases t <;> rfl

/-- models/gen_ui_models.py: MetricFormat (source member names CURRENCY,
PERCENTAGE, NUMBER, RATIO, DATE with these string values). -/
inductive MetricFormat where
  | currency
  | percentage
  | number
  | ratioFmt
  | date
deriving DecidableEq

def MetricFormat.toStr : MetricFormat → String
  | .currency => "currency"
  | .percentage => "percentage"
  | .number => "number"
  | .ratioFmt => "ratio"
  | .date => "date"

def MetricFormat.ofStr : String → Option MetricFormat
  | "currency" => some .currency
  | "percentage" => some .percentage
  | "number" => some .number
  | "ratio" => some .ratioFmt
  | "date" => some .date
  | _ => none

theorem metricFormat_ofStr_toStr (t : MetricFormat) : MetricFormat.ofStr t.toStr = some t := by
  cases t <;> rfl

/-- models/gen_ui_models.py: ChartType. -/
inductive ChartType where
  | line
  | area
  | bar
  | candlestick
  | pie
  | donut
  | treemap
  | heatmap
deriving DecidableEq

def ChartType.toStr : ChartType → String
  | .line => "line"
  | .area => "area"
  | .bar => "bar"
  | .candlestick => "candlestick"
  | .pie => "pie"
  | .donut => "donut"
  | .treemap => "treemap"
  | .heatmap => "heatmap"

def ChartType.ofStr : String → Option ChartType
  | "line" => some .line
  | "area" => some .area
  | "bar" => some .bar
  | "candlestick" => some .candlestick
  | "pie" => some .pie
  | "donut" => some .donut
  | "treemap" => some .treemap
  | "heatmap" => some .heatmap
  | _ => none

theorem chartType_ofStr_toStr (t : ChartType) : ChartType.ofStr t.toStr = some t := by
  cases t <;> rfl

/-- models/gen_ui_models.py: SectorVisualization. -/
inductive SectorVisualization where
  | heatmap
  | bar
  | table
deriving DecidableEq

def SectorVisualization.toStr : SectorVisualization → String
  | .heatmap => "heatmap"
  | .bar => "bar"
  | .table => "table"

def SectorVisualization.ofStr : String → Option SectorVisualization
  | "heatmap" => some .heatmap
  | "bar" => some .bar
  | "table" => some .table
  | _ => none

theorem sectorVisualization_ofStr_toStr (t : SectorVisualization) :
    SectorVisualization.ofStr t.toStr = some t := by
  cases t <;> rfl

/-- models/gen_ui_models.py: ComparisonType. -/
inductive ComparisonType where
  | stocks
  | etfs
  | sectors
  | cryptos
  | investors
deriving DecidableEq

def ComparisonType.toStr : ComparisonType → String
  | .stocks => "stocks"
  | .etfs => "etfs"
  | .sectors => "sectors"
  | .cryptos => "cryptos"
  | .investors => "investors"

def ComparisonType.ofStr : String → Option ComparisonType
  | "stocks" => some .stocks
  | "etfs" => some .etfs
  | "sectors" => some .sectors
  | "cryptos" => some .cryptos
  | "investors" => some .investors
  | _ => none

theorem comparisonType_ofStr_toStr (t : ComparisonType) :
    ComparisonType.ofStr t.toStr = some t := by
  cases t <;> rfl

/-- models/gen_ui_models.py: FinancialStatementType. -/
inductive FinancialStatementType where
  | income_statement
  | balance_sheet
  | cash_flow
deriving DecidableEq

def FinancialStatementType.toStr : FinancialStatementType → String
  | .income_statement => "income_statement"
  | .balance_sheet => "balance_sheet"
  | .cash_flow => "cash_flow"

def FinancialStatementType.ofStr : String → Option FinancialStatementType
  | "income_statement" => some .income_statement
  | "balance_sheet" => some .balance_sheet
  | "cash_flow" => some .cash_flow
  | _ => none

theorem financialStatementType_ofStr_toStr (t : FinancialStatementType) :
    FinancialStatementType.ofStr t.toStr = some t := by
  cases t <;> rfl

/-- models/gen_ui_models.py: AllocationType. -/
inductive AllocationType where
  | sector
  | asset_class
  | geography
  | holdings
  | market_cap
deriving DecidableEq

def AllocationType.toStr : AllocationType → String
  | .sector => "sector"
  | .asset_class => "asset_class"
  | .geography => "geography"
  | .holdings => "holdings"
  | .market_cap => "market_cap"

def AllocationType.ofStr : String → Option AllocationType
  | "sector" => some .sector
  | "asset_class" => some .asset_class
  | "geography" => some .geography
  | "holdings" => some .holdings
  | "market_cap" => some .market_cap
  | _ => none

theorem allocationType_ofStr_toStr (t : AllocationType) :
    AllocationType.ofStr t.toStr = some t := by
  cases t <;> rfl

/-- models/gen_ui_models.py: AlertSeverity. -/
inductive AlertSeverity where
  | info
  | warning
  | success
  | error
deriving DecidableEq

def AlertSeverity.toStr : AlertSeverity → String
  | .info => "info"
  | .warning => "warning"
  | .success => "success"
  | .error => "error"

def AlertSeverity.ofStr : String → Option AlertSeverity
  | "info" => some .info
  | "warning" => some .warning
  | "success" => some .success
  | "error" => some .error
  | _ => none

theorem alertSeverity_ofStr_toStr (t : AlertSeverity) : AlertSeverity.ofStr t.toStr = some t := by
  cases t <;> rfl

/-- models/gen_ui_models.py: TrendDirection. -/
inductive TrendDirection where
  | up
  | down
  | stable
deriving DecidableEq

def TrendDirection.toStr : TrendDirection → String
  | .up => "up"
  | .down => "down"
  | .stable => "stable"

def TrendDirection.ofStr : String → Option TrendDirection
  | "up" => some .up
  | "down" => some .down
  | "stable" => some .stable
  | _ => none

theorem trendDirection_ofStr_toStr (t : TrendDirection) :
    TrendDirection.ofStr t.toStr = some t := by
  cases t <;> rfl

/-- models/gen_ui_models.py: SentimentType. -/
inductive SentimentType where
  | positive
  | negative
  | neutral
deriving DecidableEq

def SentimentType.toStr : SentimentType → String
  | .positive => "positive"
  | .negative => "negative"
  | .neutral => "neutral"

def SentimentType.ofStr : String → Option SentimentType
  | "positive" => some .positive
  | "negative" => some .negative
  | "neutral" => some .neutral
  | _ => none

theorem sentimentType_ofStr_toStr (t : SentimentType) : SentimentType.ofStr t.toStr = some t := by
  cases t <;> rfl

/-! Field/value codecs: the embedding of pydantic field validation over the
dict produced by `model_dump` and re-read by `model_validate`.  The Python
stdlib `json.dumps`/`json.loads` pair (an out-of-scope collaborator per the
design) is modelled as the identity on `Jx` values, so the storage text of a
turn is represented by the `Jx` value that is dumped and re-parsed. -/

/-- Dict key lookup (`payload.get(key)`). -/
def getField (k : String) : JDict → Option Jx
  | [] => none
  | (k', v) :: rest => if k' = k then some v else getField k rest

/-- Validate a `str` field value. -/
def readStr : Jx → Option String
  | .str s => some s
  | _ => none

/-- Validate a `float` field value. -/
def readNum : Jx → Option Rat
  | .num q => some q
  | _ => none

/-- Validate an `int` field value (a JSON number with no fractional part). -/
def readInt : Jx → Option Int
  | .num q => if q.den = 1 then some q.num else none
  | _ => none

/-- Validate a `bool` field value. -/
def readBool : Jx → Option Bool
  | .bool b => some b
  | _ => none

/-- Validate a `Dict[str, Any]` field value. -/
def readObjD : Jx → Option JDict
  | .obj fs => some fs
  | _ => none

/-- Validate a str-valued enum member. -/
def readEnum (ofStr : String → Option α) : Jx → Option α :=
  fun j => (readStr j).bind ofStr

/-- Validate an `Optional[X]` value: JSON null means `None`. -/
def readOpt (f : Jx → Option α) : Jx → Option (Option α)
  | .null => some none
  | j => (f j).map some

/-- Dump an `Optional[X]` value: `None` dumps to JSON null. -/
def dumpOpt (f : α → Jx) : Option α → Jx
  | none => .null
  | some a => f a

/-- Elementwise validation of a JSON array (pydantic `List[X]`). -/
def traverseOpt (f : α → Option β) : List α → Option (List β)
  | [] => some []
  | x :: xs =>
    match f x with
    | none => none
    | some y => (traverseOpt f xs).map (y :: ·)

/-- Validate a `List[X]` field value. -/
def readArrOf (f : Jx → Option α) : Jx → Option (List α)
  | .arr xs => traverseOpt f xs
  | _ => none

/-- Dump a `List[X]` field value. -/
def dumpArrOf (f : α → Jx) (xs : List α) : Jx :=
  .arr (xs.map f)

/-- Validate a `Dict[str, float]` field value. -/
def readNumMap : Jx → Option (List (String × Rat))
  | .obj fs => traverseOpt (fun kv => (readNum kv.2).map (fun q => (kv.1, q))) fs
  | _ => none

/-- Dump a `Dict[str, float]` field value. -/
def dumpNumMap (m : List (String × Rat)) : Jx :=
  .obj (m.map (fun kv => (kv.1, .num kv.2)))

/-- A required pydantic field: missing key or invalid value fails. -/
def reqField (f : Jx → Option α) (k : String) (fs : JDict) : Option α :=
  (getField k fs).bind f

/-- A pydantic field with a default: missing key yields the default. -/
def dfltField (f : Jx → Option α) (k : String) (dflt : α) (fs : JDict) : Option α :=
  match getField k fs with
  | none => some dflt
  | some j => f j

/-- An `Optional[X] = None` pydantic field: missing key yields `None`. -/
def optField (f : Jx → Option α) (k : String) (fs : JDict) : Option (Option α) :=
  match getField k fs with
  | none => some none
  | some j => readOpt f j

theorem readStr_str (s : String) : readStr (.str s) = some s := rfl

theorem readNum_num (q : Rat) : readNum (.num q) = some q := rfl

theorem readBool_bool (b : Bool) : readBool (.bool b) = some b := rfl

theorem readObjD_obj (fs : JDict) : readObjD (.obj fs) = some fs := rfl

theorem readInt_int (n : Int) : readInt (.num (n : Rat)) = some n := by
  simp [readInt]

theorem readEnum_toStr (ofStr : String → Option α) (toStr : α → String)
    (h : ∀ a, ofStr (toStr a) = some a) (a : α) :
    readEnum ofStr (.str (toStr a)) = some a := by
  simp [readEnum, readStr, h]

theorem readOpt_dumpOpt (g : Jx → Option α) (f : α → Jx) (h : ∀ a, g (f a) = some a)
    (hne : ∀ a, f a ≠ .null) (o : Option α) : readOpt g (dumpOpt f o) = some o := by
  cases o with
  | none => rfl
  | some a =>
    have hh := h a
    have hn := hne a
    cases hfa : f a <;> simp_all [readOpt, dumpOpt]

theorem traverseOpt_map (f : β → Option α) (g : α → β) (h : ∀ a, f (g a) = some a)
    (xs : List α) : traverseOpt f (xs.map g) = some xs := by
  induction xs with
  | nil => rfl
  | cons x xs ih => simp [traverseOpt, h, ih]

theorem readArrOf_dumpArrOf (f : Jx → Option α) (g : α → Jx) (h : ∀ a, f (g a) = some a)
    (xs : List α) : readArrOf f (dumpArrOf g xs) = some xs := by
  simp [readArrOf, dumpArrOf, traverseOpt_map f g h]

theorem readNumMap_dumpNumMap (m : List (String × Rat)) : readNumMap (dumpNumMap m) = some m := by
  simp only [readNumMap, dumpNumMap]
  induction m with
  | nil => rfl
  | cons kv rest ih => simp [traverseOpt, readNum_num, ih]

theorem readOptStr_dump (o : Option String) : readOpt readStr (dumpOpt .str o) = some o :=
  readOpt_dumpOpt readStr .str (fun _ => rfl) (fun _ => by simp) o

theorem readOptNum_dump (o : Option Rat) : readOpt readNum (dumpOpt .num o) = some o :=
  readOpt_dumpOpt readNum .num (fun _ => rfl) (fun _ => by simp) o

theorem readOptObjD_dump (o : Option JDict) : readOpt readObjD (dumpOpt .obj o) = some o :=
  readOpt_dumpOpt readObjD .obj (fun _ => rfl) (fun _ => by simp) o

theorem readOptMetricFormat_dump (o : Option MetricFormat) :
    readOpt (readEnum MetricFormat.ofStr) (dumpOpt (fun t => .str t.toStr) o) = some o :=
  readOpt_dumpOpt _ _ (fun a => readEnum_toStr _ _ metricFormat_ofStr_toStr a)
    (fun _ => by simp) o

theorem readOptSentimentType_dump (o : Option SentimentType) :
    readOpt (readEnum SentimentType.ofStr) (dumpOpt (fun t => .str t.toStr) o) = some o :=
  readOpt_dumpOpt _ _ (fun a => readEnum_toStr _ _ sentimentType_ofStr_toStr a)
    (fun _ => by simp) o

theorem readOptTrendDirection_dump (o : Option TrendDirection) :
    readOpt (readEnum TrendDirection.ofStr) (dumpOpt (fun t => .str t.toStr) o) = some o :=
  readOpt_dumpOpt _ _ (fun a => readEnum_toStr _ _ trendDirection_ofStr_toStr a)
    (fun _ => by simp) o

/-- models/gen_ui_models.py: MetricItem (`value: Union[str, float]` is
embedded as a sum). -/
structure MetricItem where
  label : String
  value : Sum String Rat
  change : Option Rat := none
  format : Option MetricFormat := none

/-- Validate a `Union[str, float]` value. -/
def readStrOrNum : Jx → Option (Sum String Rat)
  | .str s => some (.inl s)
  | .num q => some (.inr q)
  | _ => none

def dumpStrOrNum : Sum String Rat → Jx
  | .inl s => .str s
  | .inr q => .num q

theorem readStrOrNum_dump (v : Sum String Rat) : readStrOrNum (dumpStrOrNum v) = some v := by
  cases v <;> rfl

def dumpMetricItem (m : MetricItem) : Jx :=
  .obj [("label", .str m.label), ("value", dumpStrOrNum m.value),
        ("change", dumpOpt .num m.change),
        ("format", dumpOpt (fun t => .str t.toStr) m.format)]

def validateMetricItem (j : Jx) : Option MetricItem := do
  match j with
  | .obj fs =>
    let label ← reqField readStr "label" fs
    let value ← reqField readStrOrNum "value" fs
    let change ← optField readNum "change" fs
    let format ← optField (readEnum MetricFormat.ofStr) "format" fs
    some { label := label, value := value, change := change, format := format }
  | _ => none

theorem validateMetricItem_dump (m : MetricItem) : validateMetricItem (dumpMetricItem m) = some m := by
  obtain ⟨label, value, change, format⟩ := m
  simp [validateMetricItem, dumpMetricItem, reqField, optField, getField,
        readStr_str, readStrOrNum_dump, readOptNum_dump, readOptMetricFormat_dump]

/-- models/gen_ui_models.py: HoldingRow. -/
structure HoldingRow where
  symbol : String
  name : String
  shares : Option Rat := none
  weight : Rat
  value : Option Rat := none
  sector : Option String := none

def dumpHoldingRow (r : HoldingRow) : Jx :=
  .obj [("symbol", .str r.symbol), ("name", .str r.name),
        ("shares", dumpOpt .num r.shares), ("weight", .num r.weight),
        ("value", dumpOpt .num r.value), ("sector", dumpOpt .str r.sector)]

def validateHoldingRow (j : Jx) : Option HoldingRow := do
  match j with
  | .obj fs =>
    let symbol ← reqField readStr "symbol" fs
    let name ← reqField readStr "name" fs
    let shares ← optField readNum "shares" fs
    let weight ← reqField readNum "weight" fs
    let value ← optField readNum "value" fs
    let sector ← optField readStr "sector" fs
    some { symbol := symbol, name := name, shares := shares, weight := weight,
           value := value, sector := sector }
  | _ => none

theorem validateHoldingRow_dump (r : HoldingRow) : validateHoldingRow (dumpHoldingRow r) = some r := by
  obtain ⟨symbol, name, shares, weight, value, sector⟩ := r
  simp [validateHoldingRow, dumpHoldingRow, reqField, optField, getField,
        readStr_str, readNum_num, readOptNum_dump, readOptStr_dump]

/-- models/gen_ui_models.py: ComparisonRow (`values: Dict[str, Any]`). -/
structure ComparisonRow where
  metric : String
  values : JDict
  format : Option MetricFormat := none

def dumpComparisonRow (r : ComparisonRow) : Jx :=
  .obj [("metric", .str r.metric), ("values", .obj r.values),
        ("format", dumpOpt (fun t => .str t.toStr) r.format)]

def validateComparisonRow (j : Jx) : Option ComparisonRow := do
  match j with
  | .obj fs =>
    let metric ← reqField readStr "metric" fs
    let values ← reqField readObjD "values" fs
    let format ← optField (readEnum MetricFormat.ofStr) "format" fs
    some { metric := metric, values := values, format := format }
  | _ => none

theorem validateComparisonRow_dump (r : ComparisonRow) :
    validateComparisonRow (dumpComparisonRow r) = some r := by
  obtain ⟨metric, values, format⟩ := r
  simp [validateComparisonRow, dumpComparisonRow, reqField, optField, getField,
        readStr_str, readObjD_obj, readOptMetricFormat_dump]

/-- models/gen_ui_models.py: SectorPerformanceItem. -/
structure SectorPerformanceItem where
  sector : String
  return_1d : Option Rat := none
  return_1w : Option Rat := none
  return_1m : Option Rat := none
  return_ytd : Option Rat := none

def dumpSectorPerformanceItem (r : SectorPerformanceItem) : Jx :=
  .obj [("sector", .str r.sector), ("return_1d", dumpOpt .num r.return_1d),
        ("return_1w", dumpOpt .num r.return_1w), ("return_1m", dumpOpt .num r.return_1m),
        ("return_ytd", dumpOpt .num r.return_ytd)]

def validateSectorPerformanceItem (j : Jx) : Option SectorPerformanceItem := do
  match j with
  | .obj fs =>
    let sector ← reqField readStr "sector" fs
    let return_1d ← optField readNum "return_1d" fs
    let return_1w ← optField readNum "return_1w" fs
    let return_1m ← optField readNum "return_1m" fs
    let return_ytd ← optField readNum "return_ytd" fs
    some { sector := sector, return_1d := return_1d, return_1w := return_1w,
           return_1m := return_1m, return_ytd := return_ytd }
  | _ => none

theorem validateSectorPerformanceItem_dump (r : SectorPerformanceItem) :
    validateSectorPerformanceItem (dumpSectorPerformanceItem r) = some r := by
  obtain ⟨sector, r1, r2, r3, r4⟩ := r
  simp [validateSectorPerformanceItem, dumpSectorPerformanceItem, reqField, optField,
        getField, readStr_str, readOptNum_dump]

/-- models/gen_ui_models.py: FinancialStatementRow (`values: Dict[str, float]`). -/
structure FinancialStatementRow where
  line_item : String
  values : List (String × Rat)
  category : Option String := none

def dumpFinancialStatementRow (r : FinancialStatementRow) : Jx :=
  .obj [("line_item", .str r.line_item), ("values", dumpNumMap r.values),
        ("category", dumpOpt .str r.category)]

def validateFinancialStatementRow (j : Jx) : Option FinancialStatementRow := do
  match j with
  | .obj fs =>
    let line_item ← reqField readStr "line_item" fs
    let values ← reqField readNumMap "values" fs
    let category ← optField readStr "category" fs
    some { line_item := line_item, values := values, category := category }
  | _ => none

theorem validateFinancialStatementRow_dump (r : FinancialStatementRow) :
    validateFinancialStatementRow (dumpFinancialStatementRow r) = some r := by
  obtain ⟨line_item, values, category⟩ := r
  simp [validateFinancialStatementRow, dumpFinancialStatementRow, reqField, optField,
        getField, readStr_str, readNumMap_dumpNumMap, readOptStr_dump]

/-- models/gen_ui_models.py: AllocationItem. -/
structure AllocationItem where
  label : String
  value : Rat
  percentage : Rat
  color : Option String := none

def dumpAllocationItem (r : AllocationItem) : Jx :=
  .obj [("label", .str r.label), ("value", .num r.value),
        ("percentage", .num r.percentage), ("color", dumpOpt .str r.color)]

def validateAllocationItem (j : Jx) : Option AllocationItem := do
  match j with
  | .obj fs =>
    let label ← reqField readStr "label" fs
    let value ← reqField readNum "value" fs
    let percentage ← reqField readNum "percentage" fs
    let color ← optField readStr "color" fs
    some { label := label, value := value, percentage := percentage, color := color }
  | _ => none

theorem validateAllocationItem_dump (r : AllocationItem) :
    validateAllocationItem (dumpAllocationItem r) = some r := by
  obtain ⟨label, value, percentage, color⟩ := r
  simp [validateAllocationItem, dumpAllocationItem, reqField, optField, getField,
        readStr_str, readNum_num, readOptStr_dump]

/-- models/gen_ui_models.py: NewsItem. -/
structure NewsItem where
  title : String
  source : String
  published_at : String
  url : Option String := none
  summary : Option String := none
  sentiment : Option SentimentType := none
  image_url : Option String := none

def dumpNewsItem (r : NewsItem) : Jx :=
  .obj [("title", .str r.title), ("source", .str r.source),
        ("published_at", .str r.published_at), ("url", dumpOpt .str r.url),
        ("summary", dumpOpt .str r.summary),
        ("sentiment", dumpOpt (fun t => .str t.toStr) r.sentiment),
        ("image_url", dumpOpt .str r.image_url)]

def validateNewsItem (j : Jx) : Option NewsItem := do
  match j with
  | .obj fs =>
    let title ← reqField readStr "title" fs
    let source ← reqField readStr "source" fs
    let published_at ← reqField readStr "published_at" fs
    let url ← optField readStr "url" fs
    let summary ← optField readStr "summary" fs
    let sentiment ← optField (readEnum SentimentType.ofStr) "sentiment" fs
    let image_url ← optField readStr "image_url" fs
    some { title := title, source := source, published_at := published_at, url := url,
           summary := summary, sentiment := sentiment, image_url := image_url }
  | _ => none

theorem validateNewsItem_dump (r : NewsItem) : validateNewsItem (dumpNewsItem r) = some r := by
  obtain ⟨title, source, published_at, url, summary, sentiment, image_url⟩ := r
  simp [validateNewsItem, dumpNewsItem, reqField, optField, getField,
        readStr_str, readOptStr_dump, readOptSentimentType_dump]

/-- models/gen_ui_models.py: InvestmentProjection (`year: int`). -/
structure InvestmentProjection where
  year : Int
  value : Rat
  contributions : Rat
  returns : Rat

def dumpInvestmentProjection (r : InvestmentProjection) : Jx :=
  .obj [("year", .num (r.year : Rat)), ("value", .num r.value),
        ("contributions", .num r.contributions), ("returns", .num r.returns)]

def validateInvestmentProjection (j : Jx) : Option InvestmentProjection := do
  match j with
  | .obj fs =>
    let year ← reqField readInt "year" fs
    let value ← reqField readNum "value" fs
    let contributions ← reqField readNum "contributions" fs
    let returns ← reqField readNum "returns" fs
    some { year := year, value := value, contributions := contributions, returns := returns }
  | _ => none

theorem validateInvestmentProjection_dump (r : InvestmentProjection) :
    validateInvestmentProjection (dumpInvestmentProjection r) = some r := by
  obtain ⟨year, value, contributions, returns⟩ := r
  simp [validateInvestmentProjection, dumpInvestmentProjection, reqField, getField,
        readInt_int, readNum_num]

/-- models/gen_ui_models.py: SuggestedAction. -/
structure SuggestedAction where
  label : String
  query : String
  icon : Option String := none

def dumpSuggestedAction (r : SuggestedAction) : Jx :=
  .obj [("label", .str r.label), ("query", .str r.query), ("icon", dumpOpt .str r.icon)]

def validateSuggestedAction (j : Jx) : Option SuggestedAction := do
  match j with
  | .obj fs =>
    let label ← reqField readStr "label" fs
    let query ← reqField readStr "query" fs
    let icon ← optField readStr "icon" fs
    some { label := label, query := query, icon := icon }
  | _ => none

theorem validateSuggestedAction_dump (r : SuggestedAction) :
    validateSuggestedAction (dumpSuggestedAction r) = some r := by
  obtain ⟨label, query, icon⟩ := r
  simp [validateSuggestedAction, dumpSuggestedAction, reqField, optField, getField,
        readStr_str, readOptStr_dump]

/-- The shared base shape of models/gen_ui_models.py UIComponent, as dumped:
type, id, title, loading, metadata, in pydantic field order.  Every component
class in the source redeclares `type` with its own default but with the full
`ComponentType` enum as the field type, so any enum value is accepted. -/
def dumpBase (ty : ComponentType) (id : String) (title : Option String)
    (loading : Bool) (metadata : Option JDict) : JDict :=
  [("type", .str ty.toStr), ("id", .str id), ("title", dumpOpt .str title),
   ("loading", .bool loading), ("metadata", dumpOpt .obj metadata)]

/-- Validation of the UIComponent base fields.  `dflt` is the declaring
class's default tag; `fresh` is the uuid4 the `id` default factory would
draw when the payload carries no id. -/
def parseBase (dflt : ComponentType) (fresh : String) (fs : JDict) :
    Option (ComponentType × String × Option String × Bool × Option JDict) := do
  let ty ← dfltField (readEnum ComponentType.ofStr) "type" dflt fs
  let id ← dfltField readStr "id" fresh fs
  let title ← optField readStr "title" fs
  let loading ← dfltField readBool "loading" false fs
  let metadata ← optField readObjD "metadata" fs
  some (ty, id, title, loading, metadata)

theorem readEnumCT_toStr (t : ComponentType) :
    readEnum ComponentType.ofStr (.str t.toStr) = some t :=
  readEnum_toStr _ _ componentType_ofStr_toStr t

theorem parseBase_dumpBase (dflt : ComponentType) (fresh : String) (ty : ComponentType)
    (id : String) (title : Option String) (loading : Bool) (metadata : Option JDict)
    (rest : JDict) :
    parseBase dflt fresh (("type", .str ty.toStr) :: ("id", .str id) ::
        ("title", dumpOpt .str title) :: ("loading", .bool loading) ::
        ("metadata", dumpOpt .obj metadata) :: rest) =
      some (ty, id, title, loading, metadata) := by
  simp [parseBase, dfltField, optField, getField, readEnumCT_toStr,
        readStr_str, readBool_bool, readOptStr_dump, readOptObjD_dump]

theorem readOptArrObj_dump (o : Option (List JDict)) :
    readOpt (readArrOf readObjD) (dumpOpt (dumpArrOf .obj) o) = some o :=
  readOpt_dumpOpt _ _ (fun xs => readArrOf_dumpArrOf readObjD .obj (fun _ => rfl) xs)
    (fun _ => by simp [dumpArrOf]) o

/-- models/gen_ui_models.py: TextComponent. -/
structure TextComponent where
  type : ComponentType := .text
  id : String
  title : Option String := none
  loading : Bool := false
  metadata : Option JDict := none
  content : String
  format : TextFormat := .plain

def dumpTextComponent (c : TextComponent) : Jx :=
  .obj (dumpBase c.type c.id c.title c.loading c.metadata ++
    [("content", .str c.content), ("format", .str c.format.toStr)])

/-- Pydantic validation against TextComponent (required payload fields are
checked first; validation succeeds only if every field validates, so the
order is immaterial to the outcome). -/
def validateTextComponent (fresh : String) (j : Jx) : Option TextComponent := do
  match j with
  | .obj fs =>
    let content ← reqField readStr "content" fs
    let format ← dfltField (readEnum TextFormat.ofStr) "format" .plain fs
    let b ← parseBase .text fresh fs
    some { type := b.1, id := b.2.1, title := b.2.2.1, loading := b.2.2.2.1,
           metadata := b.2.2.2.2, content := content, format := format }
  | _ => none

theorem validateTextComponent_dump (fresh : String) (c : TextComponent) :
    validateTextComponent fresh (dumpTextComponent c) = some c := by
  obtain ⟨ty, id, title, loading, metadata, content, format⟩ := c
  simp [validateTextComponent, dumpTextComponent, parseBase_dumpBase, reqField,
        dfltField, getField, dumpBase, readStr_str,
        readEnum_toStr _ _ textFormat_ofStr_toStr]

/-- models/gen_ui_models.py: InsightComponent. -/
structure InsightComponent where
  type : ComponentType := .insights
  id : String
  title : Option String := none
  loading : Bool := false
  metadata : Option JDict := none
  headline : String
  insights : List String
  context : Option String := none

def dumpInsightComponent (c : InsightComponent) : Jx :=
  .obj (dumpBase c.type c.id c.title c.loading c.metadata ++
    [("headline", .str c.headline), ("insights", dumpArrOf .str c.insights),
     ("context", dumpOpt .str c.context)])

def validateInsightComponent (fresh : String) (j : Jx) : Option InsightComponent := do
  match j with
  | .obj fs =>
    let headline ← reqField readStr "headline" fs
    let insights ← reqField (readArrOf readStr) "insights" fs
    let context ← optField readStr "context" fs
    let b ← parseBase .insights fresh fs
    some { type := b.1, id := b.2.1, title := b.2.2.1, loading := b.2.2.2.1,
           metadata := b.2.2.2.2, headline := headline, insights := insights,
           context := context }
  | _ => none

theorem validateInsightComponent_dump (fresh : String) (c : InsightComponent) :
    validateInsightComponent fresh (dumpInsightComponent c) = some c := by
  obtain ⟨ty, id, title, loading, metadata, headline, insights, context⟩ := c
  simp [validateInsightComponent, dumpInsightComponent, parseBase_dumpBase, reqField,
        optField, getField, dumpBase, readStr_str, readOptStr_dump,
        readArrOf_dumpArrOf readStr .str (fun _ => rfl)]

/-- models/gen_ui_models.py: AlertComponent. -/
structure AlertComponent where
  type : ComponentType := .alert
  id : String
  title : Option String := none
  loading : Bool := false
  metadata : Option JDict := none
  message : String
  severity : AlertSeverity := .info
  actionable : Bool := false
  action_label : Option String := none
  action_payload : Option JDict := none

def dumpAlertComponent (c : AlertComponent) : Jx :=
  .obj (dumpBase c.type c.id c.title c.loading c.metadata ++
    [("message", .str c.message), ("severity", .str c.severity.toStr),
     ("actionable", .bool c.actionable), ("action_label", dumpOpt .str c.action_label),
     ("action_payload", dumpOpt .obj c.action_payload)])

def validateAlertComponent (fresh : String) (j : Jx) : Option AlertComponent := do
  match j with
  | .obj fs =>
    let message ← reqField readStr "message" fs
    let severity ← dfltField (readEnum AlertSeverity.ofStr) "severity" .info fs
    let actionable ← dfltField readBool "actionable" false fs
    let action_label ← optField readStr "action_label" fs
    let action_payload ← optField readObjD "action_payload" fs
    let b ← parseBase .alert fresh fs
    some { type := b.1, id := b.2.1, title := b.2.2.1, loading := b.2.2.2.1,
           metadata := b.2.2.2.2, message := message, severity := severity,
           actionable := actionable, action_label := action_label,
           action_payload := action_payload }
  | _ => none

theorem validateAlertComponent_dump (fresh : String) (c : AlertComponent) :
    validateAlertComponent fresh (dumpAlertComponent c) = some c := by
  obtain ⟨ty, id, title, loading, metadata, message, severity, actionable, al, ap⟩ := c
  simp [validateAlertComponent, dumpAlertComponent, parseBase_dumpBase, reqField,
        dfltField, optField, getField, dumpBase, readStr_str, readBool_bool,
        readOptStr_dump, readOptObjD_dump, readEnum_toStr _ _ alertSeverity_ofStr_toStr]

/-- models/gen_ui_models.py: SecurityCardComponent. -/
structure SecurityCardComponent where
  type : ComponentType := .security_card
  id : String
  title : Option String := none
  loading : Bool := false
  metadata : Option JDict := none
  symbol : String
  name : String
  description : Option String := none
  price : Rat
  market_cap : Option Rat := none
  sector : Option String := none
  industry : Option String := none
  asset_type : AssetType := .stock

def dumpSecurityCardComponent (c : SecurityCardComponent) : Jx :=
  .obj (dumpBase c.type c.id c.title c.loading c.metadata ++
    [("symbol", .str c.symbol), ("name", .str c.name),
     ("description", dumpOpt .str c.description), ("price", .num c.price),
     ("market_cap", dumpOpt .num c.market_cap), ("sector", dumpOpt .str c.sector),
     ("industry", dumpOpt .str c.industry), ("asset_type", .str c.asset_type.toStr)])

def validateSecurityCardComponent (fresh : String) (j : Jx) : Option SecurityCardComponent := do
  match j with
  | .obj fs =>
    let symbol ← reqField readStr "symbol" fs
    let name ← reqField readStr "name" fs
    let description ← optField readStr "description" fs
    let price ← reqField readNum "price" fs
    let market_cap ← optField readNum "market_cap" fs
    let sector ← optField readStr "sector" fs
    let industry ← optField readStr "industry" fs
    let asset_type ← dfltField (readEnum AssetType.ofStr) "asset_type" .stock fs
    let b ← parseBase .security_card fresh fs
    some { type := b.1, id := b.2.1, title := b.2.2.1, loading := b.2.2.2.1,
           metadata := b.2.2.2.2, symbol := symbol, name := name,
           description := description, price := price, market_cap := market_cap,
           sector := sector, industry := industry, asset_type := asset_type }
  | _ => none

theorem validateSecurityCardComponent_dump (fresh : String) (c : SecurityCardComponent) :
    validateSecurityCardComponent fresh (dumpSecurityCardComponent c) = some c := by
  obtain ⟨ty, id, title, loading, metadata, symbol, name, description, price, mc, sec, ind, at_⟩ := c
  simp [validateSecurityCardComponent, dumpSecurityCardComponent, parseBase_dumpBase,
        reqField, dfltField, optField, getField, dumpBase, readStr_str, readNum_num,
        readOptStr_dump, readOptNum_dump, readEnum_toStr _ _ assetType_ofStr_toStr]

/-- The `columns` field of MetricsGridComponent carries the pydantic bounds
`ge=1, le=4`, so a validated component always satisfies them; the subtype
records that invariant. -/
def ColumnsInt := {n : Int // 1 ≤ n ∧ n ≤ 4}

def readColumns : Jx → Option ColumnsInt
  | .num q => if h : q.den = 1 ∧ 1 ≤ q.num ∧ q.num ≤ 4 then some ⟨q.num, h.2⟩ else none
  | _ => none

def dumpColumns (c : ColumnsInt) : Jx :=
  .num (c.val : Rat)

theorem readColumns_dump (c : ColumnsInt) : readColumns (dumpColumns c) = some c := by
  obtain ⟨n, h1, h2⟩ := c
  simp [readColumns, dumpColumns, Rat.den_intCast, Rat.num_intCast, h1, h2]

/-- models/gen_ui_models.py: MetricsGridComponent. -/
structure MetricsGridComponent where
  type : ComponentType := .metrics_grid
  id : String
  title : Option String := none
  loading : Bool := false
  metadata : Option JDict := none
  metrics : List MetricItem
  columns : ColumnsInt := ⟨2, by norm_num⟩

def dumpMetricsGridComponent (c : MetricsGridComponent) : Jx :=
  .obj (dumpBase c.type c.id c.title c.loading c.metadata ++
    [("metrics", dumpArrOf dumpMetricItem c.metrics), ("columns", dumpColumns c.columns)])

def validateMetricsGridComponent (fresh : String) (j : Jx) : Option MetricsGridComponent := do
  match j with
  | .obj fs =>
    let metrics ← reqField (readArrOf validateMetricItem) "metrics" fs
    let columns ← dfltField readColumns "columns" ⟨2, by norm_num⟩ fs
    let b ← parseBase .metrics_grid fresh fs
    some { type := b.1, id := b.2.1, title := b.2.2.1, loading := b.2.2.2.1,
           metadata := b.2.2.2.2, metrics := metrics, columns := columns }
  | _ => none

theorem validateMetricsGridComponent_dump (fresh : String) (c : MetricsGridComponent) :
    validateMetricsGridComponent fresh (dumpMetricsGridComponent c) = some c := by
  obtain ⟨ty, id, title, loading, metadata, metrics, columns⟩ := c
  simp [validateMetricsGridComponent, dumpMetricsGridComponent, parseBase_dumpBase,
        reqField, dfltField, getField, dumpBase, readColumns_dump,
        readArrOf_dumpArrOf validateMetricItem dumpMetricItem validateMetricItem_dump]

/-- models/gen_ui_models.py: EconomicIndicatorComponent. -/
structure EconomicIndicatorComponent where
  type : ComponentType := .economic_indicator
  id : String
  title : Option String := none
  loading : Bool := false
  metadata : Option JDict := none
  indicator_name : String
  current_value : Rat
  previous_value : Option Rat := none
  change : Option Rat := none
  as_of_date : String
  trend : Option TrendDirection := none
  chart_data : Option (List JDict) := none

def dumpEconomicIndicatorComponent (c : EconomicIndicatorComponent) : Jx :=
  .obj (dumpBase c.type c.id c.title c.loading c.metadata ++
    [("indicator_name", .str c.indicator_name), ("current_value", .num c.current_value),
     ("previous_value", dumpOpt .num c.previous_value), ("change", dumpOpt .num c.change),
     ("as_of_date", .str c.as_of_date),
     ("trend", dumpOpt (fun t => .str t.toStr) c.trend),
     ("chart_data", dumpOpt (dumpArrOf .obj) c.chart_data)])

def validateEconomicIndicatorComponent (fresh : String) (j : Jx) :
    Option EconomicIndicatorComponent := do
  match j with
  | .obj fs =>
    let indicator_name ← reqField readStr "indicator_name" fs
    let current_value ← reqField readNum "current_value" fs
    let previous_value ← optField readNum "previous_value" fs
    let change ← optField readNum "change" fs
    let as_of_date ← reqField readStr "as_of_date" fs
    let trend ← optField (readEnum TrendDirection.ofStr) "trend" fs
    let chart_data ← optField (readArrOf readObjD) "chart_data" fs
    let b ← parseBase .economic_indicator fresh fs
    some { type := b.1, id := b.2.1, title := b.2.2.1, loading := b.2.2.2.1,
           metadata := b.2.2.2.2, indicator_name := indicator_name,
           current_value := current_value, previous_value := previous_value,
           change := change, as_of_date := as_of_date, trend := trend,
           chart_data := chart_data }
  | _ => none

theorem validateEconomicIndicatorComponent_dump (fresh : String)
    (c : EconomicIndicatorComponent) :
    validateEconomicIndicatorComponent fresh (dumpEconomicIndicatorComponent c) = some c := by
  obtain ⟨ty, id, title, loading, metadata, n, cv, pv, ch, ad, tr, cd⟩ := c
  simp [validateEconomicIndicatorComponent, dumpEconomicIndicatorComponent,
        parseBase_dumpBase, reqField, optField, getField, dumpBase, readStr_str,
        readNum_num, readOptNum_dump, readOptStr_dump, readOptTrendDirection_dump,
        readOptArrObj_dump]

/-- models/gen_ui_models.py: PortfolioHoldingsComponent. -/
structure PortfolioHoldingsComponent where
  type : ComponentType := .portfolio_holdings
  id : String
  title : Option String := none
  loading : Bool := false
  metadata : Option JDict := none
  holdings : List HoldingRow
  total_value : Option Rat := none
  as_of_date : Option String := none

def dumpPortfolioHoldingsComponent (c : PortfolioHoldingsComponent) : Jx :=
  .obj (dumpBase c.type c.id c.title c.loading c.metadata ++
    [("holdings", dumpArrOf dumpHoldingRow c.holdings),
     ("total_value", dumpOpt .num c.total_value),
     ("as_of_date", dumpOpt .str c.as_of_date)])

def validatePortfolioHoldingsComponent (fresh : String) (j : Jx) :
    Option PortfolioHoldingsComponent := do
  match j with
  | .obj fs =>
    let holdings ← reqField (readArrOf validateHoldingRow) "holdings" fs
    let total_value ← optField readNum "total_value" fs
    let as_of_date ← optField readStr "as_of_date" fs
    let b ← parseBase .portfolio_holdings fresh fs
    some { type := b.1, id := b.2.1, title := b.2.2.1, loading := b.2.2.2.1,
           metadata := b.2.2.2.2, holdings := holdings, total_value := total_value,
           as_of_date := as_of_date }
  | _ => none

theorem validatePortfolioHoldingsComponent_dump (fresh : String)
    (c : PortfolioHoldingsComponent) :
    validatePortfolioHoldingsComponent fresh (dumpPortfolioHoldingsComponent c) = some c := by
  obtain ⟨ty, id, title, loading, metadata, holdings, tv, ad⟩ := c
  simp [validatePortfolioHoldingsComponent, dumpPortfolioHoldingsComponent,
        parseBase_dumpBase, reqField, optField, getField, dumpBase,
        readOptNum_dump, readOptStr_dump,
        readArrOf_dumpArrOf validateHoldingRow dumpHoldingRow validateHoldingRow_dump]

/-- models/gen_ui_models.py: ComparisonTableComponent. -/
structure ComparisonTableComponent where
  type : ComponentType := .comparison_table
  id : String
  title : Option String := none
  loading : Bool := false
  metadata : Option JDict := none
  entities : List String
  rows : List ComparisonRow
  comparison_type : ComparisonType := .stocks

def dumpComparisonTableComponent (c : ComparisonTableComponent) : Jx :=
  .obj (dumpBase c.type c.id c.title c.loading c.metadata ++
    [("entities", dumpArrOf .str c.entities),
     ("rows", dumpArrOf dumpComparisonRow c.rows),
     ("comparison_type", .str c.comparison_type.toStr)])

def validateComparisonTableComponent (fresh : String) (j : Jx) :
    Option ComparisonTableComponent := do
  match j with
  | .obj fs =>
    let entities ← reqField (readArrOf readStr) "entities" fs
    let rows ← reqField (readArrOf validateComparisonRow) "rows" fs
    let comparison_type ← dfltField (readEnum ComparisonType.ofStr) "comparison_type" .stocks fs
    let b ← parseBase .comparison_table fresh fs
    some { type := b.1, id := b.2.1, title := b.2.2.1, loading := b.2.2.2.1,
           metadata := b.2.2.2.2, entities := entities, rows := rows,
           comparison_type := comparison_type }
  | _ => none

theorem validateComparisonTableComponent_dump (fresh : String)
    (c : ComparisonTableComponent) :
    validateComparisonTableComponent fresh (dumpComparisonTableComponent c) = some c := by
  obtain ⟨ty, id, title, loading, metadata, entities, rows, ct⟩ := c
  simp [validateComparisonTableComponent, dumpComparisonTableComponent,
        parseBase_dumpBase, reqField, dfltField, getField, dumpBase,
        readArrOf_dumpArrOf readStr .str (fun _ => rfl),
        readArrOf_dumpArrOf validateComparisonRow dumpComparisonRow validateComparisonRow_dump,
        readEnum_toStr _ _ comparisonType_ofStr_toStr]

/-- models/gen_ui_models.py: SectorPerformanceComponent. -/
structure SectorPerformanceComponent where
  type : ComponentType := .sector_performance
  id : String
  title : Option String := none
  loading : Bool := false
  metadata : Option JDict := none
  sectors : List SectorPerformanceItem
  visualization : SectorVisualization := .heatmap

def dumpSectorPerformanceComponent (c : SectorPerformanceComponent) : Jx :=
  .obj (dumpBase c.type c.id c.title c.loading c.metadata ++
    [("sectors", dumpArrOf dumpSectorPerformanceItem c.sectors),
     ("visualization", .str c.visualization.toStr)])

def validateSectorPerformanceComponent (fresh : String) (j : Jx) :
    Option SectorPerformanceComponent := do
  match j with
  | .obj fs =>
    let sectors ← reqField (readArrOf validateSectorPerformanceItem) "sectors" fs
    let visualization ← dfltField (readEnum SectorVisualization.ofStr) "visualization" .heatmap fs
    let b ← parseBase .sector_performance fresh fs
    some { type := b.1, id := b.2.1, title := b.2.2.1, loading := b.2.2.2.1,
           metadata := b.2.2.2.2, sectors := sectors, visualization := visualization }
  | _ => none

theorem validateSectorPerformanceComponent_dump (fresh : String)
    (c : SectorPerformanceComponent) :
    validateSectorPerformanceComponent fresh (dumpSectorPerformanceComponent c) = some c := by
  obtain ⟨ty, id, title, loading, metadata, sectors, vis⟩ := c
  simp [validateSectorPerformanceComponent, dumpSectorPerformanceComponent,
        parseBase_dumpBase, reqField, dfltField, getField, dumpBase,
        readArrOf_dumpArrOf validateSectorPerformanceItem dumpSectorPerformanceItem
          validateSectorPerformanceItem_dump,
        readEnum_toStr _ _ sectorVisualization_ofStr_toStr]

/-- models/gen_ui_models.py: FinancialStatementComponent. -/
structure FinancialStatementComponent where
  type : ComponentType := .financial_statement
  id : String
  title : Option String := none
  loading : Bool := false
  metadata : Option JDict := none
  statement_type : FinancialStatementType
  periods : List String
  rows : List FinancialStatementRow
  currency : String := "USD"

def dumpFinancialStatementComponent (c : FinancialStatementComponent) : Jx :=
  .obj (dumpBase c.type c.id c.title c.loading c.metadata ++
    [("statement_type", .str c.statement_type.toStr),
     ("periods", dumpArrOf .str c.periods),
     ("rows", dumpArrOf dumpFinancialStatementRow c.rows),
     ("currency", .str c.currency)])

def validateFinancialStatementComponent (fresh : String) (j : Jx) :
    Option FinancialStatementComponent := do
  match j with
  | .obj fs =>
    let statement_type ← reqField (readEnum FinancialStatementType.ofStr) "statement_type" fs
    let periods ← reqField (readArrOf readStr) "periods" fs
    let rows ← reqField (readArrOf validateFinancialStatementRow) "rows" fs
    let currency ← dfltField readStr "currency" "USD" fs
    let b ← parseBase .financial_statement fresh fs
    some { type := b.1, id := b.2.1, title := b.2.2.1, loading := b.2.2.2.1,
           metadata := b.2.2.2.2, statement_type := statement_type, periods := periods,
           rows := rows, currency := currency }
  | _ => none

theorem validateFinancialStatementComponent_dump (fresh : String)
    (c : FinancialStatementComponent) :
    validateFinancialStatementComponent fresh (dumpFinancialStatementComponent c) = some c := by
  obtain ⟨ty, id, title, loading, metadata, stype, periods, rows, currency⟩ := c
  simp [validateFinancialStatementComponent, dumpFinancialStatementComponent,
        parseBase_dumpBase, reqField, dfltField, getField, dumpBase, readStr_str,
        readArrOf_dumpArrOf readStr .str (fun _ => rfl),
        readArrOf_dumpArrOf validateFinancialStatementRow dumpFinancialStatementRow
          validateFinancialStatementRow_dump,
        readEnum_toStr _ _ financialStatementType_ofStr_toStr]

/-- models/gen_ui_models.py: TimeSeriesChartComponent. -/
structure TimeSeriesChartComponent where
  type : ComponentType := .time_series_chart
  id : String
  title : Option String := none
  loading : Bool := false
  metadata : Option JDict := none
  series : List JDict
  x_axis_label : Option String := none
  y_axis_label : Option String := none
  chart_type : ChartType := .line
  date_range : Option String := none
  format : MetricFormat := .number

def dumpTimeSeriesChartComponent (c : TimeSeriesChartComponent) : Jx :=
  .obj (dumpBase c.type c.id c.title c.loading c.metadata ++
    [("series", dumpArrOf .obj c.series),
     ("x_axis_label", dumpOpt .str c.x_axis_label),
     ("y_axis_label", dumpOpt .str c.y_axis_label),
     ("chart_type", .str c.chart_type.toStr),
     ("date_range", dumpOpt .str c.date_range),
     ("format", .str c.format.toStr)])

def validateTimeSeriesChartComponent (fresh : String) (j : Jx) :
    Option TimeSeriesChartComponent := do
  match j with
  | .obj fs =>
    let series ← reqField (readArrOf readObjD) "series" fs
    let x_axis_label ← optField readStr "x_axis_label" fs
    let y_axis_label ← optField readStr "y_axis_label" fs
    let chart_type ← dfltField (readEnum ChartType.ofStr) "chart_type" .line fs
    let date_range ← optField readStr "date_range" fs
    let format ← dfltField (readEnum MetricFormat.ofStr) "format" .number fs
    let b ← parseBase .time_series_chart fresh fs
    some { type := b.1, id := b.2.1, title := b.2.2.1, loading := b.2.2.2.1,
           metadata := b.2.2.2.2, series := series, x_axis_label := x_axis_label,
           y_axis_label := y_axis_label, chart_type := chart_type,
           date_range := date_range, format := format }
  | _ => none

theorem validateTimeSeriesChartComponent_dump (fresh : String)
    (c : TimeSeriesChartComponent) :
    validateTimeSeriesChartComponent fresh (dumpTimeSeriesChartComponent c) = some c := by
  obtain ⟨ty, id, title, loading, metadata, series, xl, yl, ct, dr, fmt⟩ := c
  simp [validateTimeSeriesChartComponent, dumpTimeSeriesChartComponent,
        parseBase_dumpBase, reqField, dfltField, optField, getField, dumpBase,
        readOptStr_dump, readArrOf_dumpArrOf readObjD .obj (fun _ => rfl),
        readEnum_toStr _ _ chartType_ofStr_toStr,
        readEnum_toStr _ _ metricFormat_ofStr_toStr]

/-- models/gen_ui_models.py: AllocationChartComponent. -/
structure AllocationChartComponent where
  type : ComponentType := .allocation_chart
  id : String
  title : Option String := none
  loading : Bool := false
  metadata : Option JDict := none
  allocations : List AllocationItem
  chart_type : ChartType := .pie
  allocation_type : AllocationType
  total_value : Option Rat := none

def dumpAllocationChartComponent (c : AllocationChartComponent) : Jx :=
  .obj (dumpBase c.type c.id c.title c.loading c.metadata ++
    [("allocations", dumpArrOf dumpAllocationItem c.allocations),
     ("chart_type", .str c.chart_type.toStr),
     ("allocation_type", .str c.allocation_type.toStr),
     ("total_value", dumpOpt .num c.total_value)])

def validateAllocationChartComponent (fresh : String) (j : Jx) :
    Option AllocationChartComponent := do
  match j with
  | .obj fs =>
    let allocations ← reqField (readArrOf validateAllocationItem) "allocations" fs
    let chart_type ← dfltField (readEnum ChartType.ofStr) "chart_type" .pie fs
    let allocation_type ← reqField (readEnum AllocationType.ofStr) "allocation_type" fs
    let total_value ← optField readNum "total_value" fs
    let b ← parseBase .allocation_chart fresh fs
    some { type := b.1, id := b.2.1, title := b.2.2.1, loading := b.2.2.2.1,
           metadata := b.2.2.2.2, allocations := allocations, chart_type := chart_type,
           allocation_type := allocation_type, total_value := total_value }
  | _ => none

theorem validateAllocationChartComponent_dump (fresh : String)
    (c : AllocationChartComponent) :
    validateAllocationChartComponent fresh (dumpAllocationChartComponent c) = some c := by
  obtain ⟨ty, id, title, loading, metadata, allocs, ct, at_, tv⟩ := c
  simp [validateAllocationChartComponent, dumpAllocationChartComponent,
        parseBase_dumpBase, reqField, dfltField, optField, getField, dumpBase,
        readOptNum_dump,
        readArrOf_dumpArrOf validateAllocationItem dumpAllocationItem validateAllocationItem_dump,
        readEnum_toStr _ _ chartType_ofStr_toStr,
        readEnum_toStr _ _ allocationType_ofStr_toStr]

/-- models/gen_ui_models.py: NewsFeedComponent. -/
structure NewsFeedComponent where
  type : ComponentType := .news_feed
  id : String
  title : Option String := none
  loading : Bool := false
  metadata : Option JDict := none
  articles : List NewsItem

def dumpNewsFeedComponent (c : NewsFeedComponent) : Jx :=
  .obj (dumpBase c.type c.id c.title c.loading c.metadata ++
    [("articles", dumpArrOf dumpNewsItem c.articles)])

def validateNewsFeedComponent (fresh : String) (j : Jx) : Option NewsFeedComponent := do
  match j with
  | .obj fs =>
    let articles ← reqField (readArrOf validateNewsItem) "articles" fs
    let b ← parseBase .news_feed fresh fs
    some { type := b.1, id := b.2.1, title := b.2.2.1, loading := b.2.2.2.1,
           metadata := b.2.2.2.2, articles := articles }
  | _ => none

theorem validateNewsFeedComponent_dump (fresh : String) (c : NewsFeedComponent) :
    validateNewsFeedComponent fresh (dumpNewsFeedComponent c) = some c := by
  obtain ⟨ty, id, title, loading, metadata, articles⟩ := c
  simp [validateNewsFeedComponent, dumpNewsFeedComponent, parseBase_dumpBase,
        reqField, getField, dumpBase,
        readArrOf_dumpArrOf validateNewsItem dumpNewsItem validateNewsItem_dump]

/-- models/gen_ui_models.py: InvestmentCalculatorComponent. -/
structure InvestmentCalculatorComponent where
  type : ComponentType := .investment_calculator
  id : String
  title : Option String := none
  loading : Bool := false
  metadata : Option JDict := none
  initial_investment : Rat
  annual_return : Rat
  years : Int
  final_value : Rat
  total_return : Rat
  total_return_percent : Rat
  projections : List InvestmentProjection

def dumpInvestmentCalculatorComponent (c : InvestmentCalculatorComponent) : Jx :=
  .obj (dumpBase c.type c.id c.title c.loading c.metadata ++
    [("initial_investment", .num c.initial_investment),
     ("annual_return", .num c.annual_return),
     ("years", .num (c.years : Rat)),
     ("final_value", .num c.final_value),
     ("total_return", .num c.total_return),
     ("total_return_percent", .num c.total_return_percent),
     ("projections", dumpArrOf dumpInvestmentProjection c.projections)])

def validateInvestmentCalculatorComponent (fresh : String) (j : Jx) :
    Option InvestmentCalculatorComponent := do
  match j with
  | .obj fs =>
    let initial_investment ← reqField readNum "initial_investment" fs
    let annual_return ← reqField readNum "annual_return" fs
    let years ← reqField readInt "years" fs
    let final_value ← reqField readNum "final_value" fs
    let total_return ← reqField readNum "total_return" fs
    let total_return_percent ← reqField readNum "total_return_percent" fs
    let projections ← reqField (readArrOf validateInvestmentProjection) "projections" fs
    let b ← parseBase .investment_calculator fresh fs
    some { type := b.1, id := b.2.1, title := b.2.2.1, loading := b.2.2.2.1,
           metadata := b.2.2.2.2, initial_investment := initial_investment,
           annual_return := annual_return, years := years, final_value := final_value,
           total_return := total_return, total_return_percent := total_return_percent,
           projections := projections }
  | _ => none

theorem validateInvestmentCalculatorComponent_dump (fresh : String)
    (c : InvestmentCalculatorComponent) :
    validateInvestmentCalculatorComponent fresh (dumpInvestmentCalculatorComponent c) = some c := by
  obtain ⟨ty, id, title, loading, metadata, ii, ar, years, fv, tr, trp, projections⟩ := c
  simp [validateInvestmentCalculatorComponent, dumpInvestmentCalculatorComponent,
        parseBase_dumpBase, reqField, getField, dumpBase, readNum_num, readInt_int,
        readArrOf_dumpArrOf validateInvestmentProjection dumpInvestmentProjection
          validateInvestmentProjection_dump]

/-- models/gen_ui_models.py: ActionSuggestionsComponent. -/
structure ActionSuggestionsComponent where
  type : ComponentType := .action_suggestions
  id : String
  title : Option String := none
  loading : Bool := false
  metadata : Option JDict := none
  suggestions : List SuggestedAction

def dumpActionSuggestionsComponent (c : ActionSuggestionsComponent) : Jx :=
  .obj (dumpBase c.type c.id c.title c.loading c.metadata ++
    [("suggestions", dumpArrOf dumpSuggestedAction c.suggestions)])

def validateActionSuggestionsComponent (fresh : String) (j : Jx) :
    Option ActionSuggestionsComponent := do
  match j with
  | .obj fs =>
    let suggestions ← reqField (readArrOf validateSuggestedAction) "suggestions" fs
    let b ← parseBase .action_suggestions fresh fs
    some { type := b.1, id := b.2.1, title := b.2.2.1, loading := b.2.2.2.1,
           metadata := b.2.2.2.2, suggestions := suggestions }
  | _ => none

theorem validateActionSuggestionsComponent_dump (fresh : String)
    (c : ActionSuggestionsComponent) :
    validateActionSuggestionsComponent fresh (dumpActionSuggestionsComponent c) = some c := by
  obtain ⟨ty, id, title, loading, metadata, suggestions⟩ := c
  simp [validateActionSuggestionsComponent, dumpActionSuggestionsComponent,
        parseBase_dumpBase, reqField, getField, dumpBase,
        readArrOf_dumpArrOf validateSuggestedAction dumpSuggestedAction
          validateSuggestedAction_dump]

/-- The 15-member component union of models/gen_ui_models.py
GenerativeUIResponseFormat.components (an untagged pydantic union; members
are tried in declaration order). -/
inductive UIComponentValue where
  | text (c : TextComponent) : UIComponentValue
  | insight (c : InsightComponent) : UIComponentValue
  | alert (c : AlertComponent) : UIComponentValue
  | security_card (c : SecurityCardComponent) : UIComponentValue
  | metrics_grid (c : MetricsGridComponent) : UIComponentValue
  | economic_indicator (c : EconomicIndicatorComponent) : UIComponentValue
  | portfolio_holdings (c : PortfolioHoldingsComponent) : UIComponentValue
  | comparison_table (c : ComparisonTableComponent) : UIComponentValue
  | sector_performance (c : SectorPerformanceComponent) : UIComponentValue
  | financial_statement (c : FinancialStatementComponent) : UIComponentValue
  | time_series_chart (c : TimeSeriesChartComponent) : UIComponentValue
  | allocation_chart (c : AllocationChartComponent) : UIComponentValue
  | news_feed (c : NewsFeedComponent) : UIComponentValue
  | investment_calculator (c : InvestmentCalculatorComponent) : UIComponentValue
  | action_suggestions (c : ActionSuggestionsComponent) : UIComponentValue

/-- model_dump of a union member. -/
def dumpComponent : UIComponentValue → Jx
  | .text c => dumpTextComponent c
  | .insight c => dumpInsightComponent c
  | .alert c => dumpAlertComponent c
  | .security_card c => dumpSecurityCardComponent c
  | .metrics_grid c => dumpMetricsGridComponent c
  | .economic_indicator c => dumpEconomicIndicatorComponent c
  | .portfolio_holdings c => dumpPortfolioHoldingsComponent c
  | .comparison_table c => dumpComparisonTableComponent c
  | .sector_performance c => dumpSectorPerformanceComponent c
  | .financial_statement c => dumpFinancialStatementComponent c
  | .time_series_chart c => dumpTimeSeriesChartComponent c
  | .allocation_chart c => dumpAllocationChartComponent c
  | .news_feed c => dumpNewsFeedComponent c
  | .investment_calculator c => dumpInvestmentCalculatorComponent c
  | .action_suggestions c => dumpActionSuggestionsComponent c

/-- The `type` discriminator tag a component value carries. -/
def tagOf : UIComponentValue → ComponentType
  | .text c => c.type
  | .insight c => c.type
  | .alert c => c.type
  | .security_card c => c.type
  | .metrics_grid c => c.type
  | .economic_indicator c => c.type
  | .portfolio_holdings c => c.type
  | .comparison_table c => c.type
  | .sector_performance c => c.type
  | .financial_statement c => c.type
  | .time_series_chart c => c.type
  | .allocation_chart c => c.type
  | .news_feed c => c.type
  | .investment_calculator c => c.type
  | .action_suggestions c => c.type

/-- Validation of a payload against the union: pydantic tries each member
of the union on the payload and the first member that validates wins.  No
member constrains its `type` tag beyond membership in the ComponentType
enum, so member selection is driven by the members\' own (required) fields,
not by the tag. -/
def validateComponent (fresh : String) (j : Jx) : Option UIComponentValue :=
  match validateTextComponent fresh j with
  | some c => some (.text c)
  | none =>
  match validateInsightComponent fresh j with
  | some c => some (.insight c)
  | none =>
  match validateAlertComponent fresh j with
  | some c => some (.alert c)
  | none =>
  match validateSecurityCardComponent fresh j with
  | some c => some (.security_card c)
  | none =>
  match validateMetricsGridComponent fresh j with
  | some c => some (.metrics_grid c)
  | none =>
  match validateEconomicIndicatorComponent fresh j with
  | some c => some (.economic_indicator c)
  | none =>
  match validatePortfolioHoldingsComponent fresh j with
  | some c => some (.portfolio_holdings c)
  | none =>
  match validateComparisonTableComponent fresh j with
  | some c => some (.comparison_table c)
  | none =>
  match validateSectorPerformanceComponent fresh j with
  | some c => some (.sector_performance c)
  | none =>
  match validateFinancialStatementComponent fresh j with
  | some c => some (.financial_statement c)
  | none =>
  match validateTimeSeriesChartComponent fresh j with
  | some c => some (.time_series_chart c)
  | none =>
  match validateAllocationChartComponent fresh j with
  | some c => some (.allocation_chart c)
  | none =>
  match validateNewsFeedComponent fresh j with
  | some c => some (.news_feed c)
  | none =>
  match validateInvestmentCalculatorComponent fresh j with
  | some c => some (.investment_calculator c)
  | none =>
  match validateActionSuggestionsComponent fresh j with
  | some c => some (.action_suggestions c)
  | none =>
  none

theorem validateComponent_dump (fresh : String) (c : UIComponentValue) :
    validateComponent fresh (dumpComponent c) = some c := by
  cases c with
  | text c =>
    simp [validateComponent, dumpComponent, validateTextComponent_dump]
  | insight c =>
    have h0 : validateTextComponent fresh (dumpInsightComponent c) = none := rfl
    simp [validateComponent, dumpComponent, h0, validateInsightComponent_dump]
  | alert c =>
    have h0 : validateTextComponent fresh (dumpAlertComponent c) = none := rfl
    have h1 : validateInsightComponent fresh (dumpAlertComponent c) = none := rfl
    simp [validateComponent, dumpComponent, h0, h1, validateAlertComponent_dump]
  | security_card c =>
    have h0 : validateTextComponent fresh (dumpSecurityCardComponent c) = none := rfl
    have h1 : validateInsightComponent fresh (dumpSecurityCardComponent c) = none := rfl
    have h2 : validateAlertComponent fresh (dumpSecurityCardComponent c) = none := rfl
    simp [validateComponent, dumpComponent, h0, h1, h2, validateSecurityCardComponent_dump]
  | metrics_grid c =>
    have h0 : validateTextComponent fresh (dumpMetricsGridComponent c) = none := rfl
    have h1 : validateInsightComponent fresh (dumpMetricsGridComponent c) = none := rfl
    have h2 : validateAlertComponent fresh (dumpMetricsGridComponent c) = none := rfl
    have h3 : validateSecurityCardComponent fresh (dumpMetricsGridComponent c) = none := rfl
    simp [validateComponent, dumpComponent, h0, h1, h2, h3, validateMetricsGridComponent_dump]
  | economic_indicator c =>
    have h0 : validateTextComponent fresh (dumpEconomicIndicatorComponent c) = none := rfl
    have h1 : validateInsightComponent fresh (dumpEconomicIndicatorComponent c) = none := rfl
    have h2 : validateAlertComponent fresh (dumpEconomicIndicatorComponent c) = none := rfl
    have h3 : validateSecurityCardComponent fresh (dumpEconomicIndicatorComponent c) = none := rfl
    have h4 : validateMetricsGridComponent fresh (dumpEconomicIndicatorComponent c) = none := rfl
    simp [validateComponent, dumpComponent, h0, h1, h2, h3, h4, validateEconomicIndicatorComponent_dump]
  | portfolio_holdings c =>
    have h0 : validateTextComponent fresh (dumpPortfolioHoldingsComponent c) = none := rfl
    have h1 : validateInsightComponent fresh (dumpPortfolioHoldingsComponent c) = none := rfl
    have h2 : validateAlertComponent fresh (dumpPortfolioHoldingsComponent c) = none := rfl
    have h3 : validateSecurityCardComponent fresh (dumpPortfolioHoldingsComponent c) = none := rfl
    have h4 : validateMetricsGridComponent fresh (dumpPortfolioHoldingsComponent c) = none := rfl
    have h5 : validateEconomicIndicatorComponent fresh (dumpPortfolioHoldingsComponent c) = none := rfl
    simp [validateComponent, dumpComponent, h0, h1, h2, h3, h4, h5, validatePortfolioHoldingsComponent_dump]
  | comparison_table c =>
    have h0 : validateTextComponent fresh (dumpComparisonTableComponent c) = none := rfl
    have h1 : validateInsightComponent fresh (dumpComparisonTableComponent c) = none := rfl
    have h2 : validateAlertComponent fresh (dumpComparisonTableComponent c) = none := rfl
    have h3 : validateSecurityCardComponent fresh (dumpComparisonTableComponent c) = none := rfl
    have h4 : validateMetricsGridComponent fresh (dumpComparisonTableComponent c) = none := rfl
    have h5 : validateEconomicIndicatorComponent fresh (dumpComparisonTableComponent c) = none := rfl
    have h6 : validatePortfolioHoldingsComponent fresh (dumpComparisonTableComponent c) = none := rfl
    simp [validateComponent, dumpComponent, h0, h1, h2, h3, h4, h5, h6, validateComparisonTableComponent_dump]
  | sector_performance c =>
    have h0 : validateTextComponent fresh (dumpSectorPerformanceComponent c) = none := rfl
    have h1 : validateInsightComponent fresh (dumpSectorPerformanceComponent c) = none := rfl
    have h2 : validateAlertComponent fresh (dumpSectorPerformanceComponent c) = none := rfl
    have h3 : validateSecurityCardComponent fresh (dumpSectorPerformanceComponent c) = none := rfl
    have h4 : validateMetricsGridComponent fresh (dumpSectorPerformanceComponent c) = none := rfl
    have h5 : validateEconomicIndicatorComponent fresh (dumpSectorPerformanceComponent c) = none := rfl
    have h6 : validatePortfolioHoldingsComponent fresh (dumpSectorPerformanceComponent c) = none := rfl
    have h7 : validateComparisonTableComponent fresh (dumpSectorPerformanceComponent c) = none := rfl
    simp [validateComponent, dumpComponent, h0, h1, h2, h3, h4, h5, h6, h7, validateSectorPerformanceComponent_dump]
  | financial_statement c =>
    have h0 : validateTextComponent fresh (dumpFinancialStatementComponent c) = none := rfl
    have h1 : validateInsightComponent fresh (dumpFinancialStatementComponent c) = none := rfl
    have h2 : validateAlertComponent fresh (dumpFinancialStatementComponent c) = none := rfl
    have h3 : validateSecurityCardComponent fresh (dumpFinancialStatementComponent c) = none := rfl
    have h4 : validateMetricsGridComponent fresh (dumpFinancialStatementComponent c) = none := rfl
    have h5 : validateEconomicIndicatorComponent fresh (dumpFinancialStatementComponent c) = none := rfl
    have h6 : validatePortfolioHoldingsComponent fresh (dumpFinancialStatementComponent c) = none := rfl
    have h7 : validateComparisonTableComponent fresh (dumpFinancialStatementComponent c) = none := rfl
    have h8 : validateSectorPerformanceComponent fresh (dumpFinancialStatementComponent c) = none := rfl
    simp [validateComponent, dumpComponent, h0, h1, h2, h3, h4, h5, h6, h7, h8, validateFinancialStatementComponent_dump]
  | time_series_chart c =>
    have h0 : validateTextComponent fresh (dumpTimeSeriesChartComponent c) = none := rfl
    have h1 : validateInsightComponent fresh (dumpTimeSeriesChartComponent c) = none := rfl
    have h2 : validateAlertComponent fresh (dumpTimeSeriesChartComponent c) = none := rfl
    have h3 : validateSecurityCardComponent fresh (dumpTimeSeriesChartComponent c) = none := rfl
    have h4 : validateMetricsGridComponent fresh (dumpTimeSeriesChartComponent c) = none := rfl
    have h5 : validateEconomicIndicatorComponent fresh (dumpTimeSeriesChartComponent c) = none := rfl
    have h6 : validatePortfolioHoldingsComponent fresh (dumpTimeSeriesChartComponent c) = none := rfl
    have h7 : validateComparisonTableComponent fresh (dumpTimeSeriesChartComponent c) = none := rfl
    have h8 : validateSectorPerformanceComponent fresh (dumpTimeSeriesChartComponent c) = none := rfl
    have h9 : validateFinancialStatementComponent fresh (dumpTimeSeriesChartComponent c) = none := rfl
    simp [validateComponent, dumpComponent, h0, h1, h2, h3, h4, h5, h6, h7, h8, h9, validateTimeSeriesChartComponent_dump]
  | allocation_chart c =>
    have h0 : validateTextComponent fresh (dumpAllocationChartComponent c) = none := rfl
    have h1 : validateInsightComponent fresh (dumpAllocationChartComponent c) = none := rfl
    have h2 : validateAlertComponent fresh (dumpAllocationChartComponent c) = none := rfl
    have h3 : validateSecurityCardComponent fresh (dumpAllocationChartComponent c) = none := rfl
    have h4 : validateMetricsGridComponent fresh (dumpAllocationChartComponent c) = none := rfl
    have h5 : validateEconomicIndicatorComponent fresh (dumpAllocationChartComponent c) = none := rfl
    have h6 : validatePortfolioHoldingsComponent fresh (dumpAllocationChartComponent c) = none := rfl
    have h7 : validateComparisonTableComponent fresh (dumpAllocationChartComponent c) = none := rfl
    have h8 : validateSectorPerformanceComponent fresh (dumpAllocationChartComponent c) = none := rfl
    have h9 : validateFinancialStatementComponent fresh (dumpAllocationChartComponent c) = none := rfl
    have h10 : validateTimeSeriesChartComponent fresh (dumpAllocationChartComponent c) = none := rfl
    simp [validateComponent, dumpComponent, h0, h1, h2, h3, h4, h5, h6, h7, h8, h9, h10, validateAllocationChartComponent_dump]
  | news_feed c =>
    have h0 : validateTextComponent fresh (dumpNewsFeedComponent c) = none := rfl
    have h1 : validateInsightComponent fresh (dumpNewsFeedComponent c) = none := rfl
    have h2 : validateAlertComponent fresh (dumpNewsFeedComponent c) = none := rfl
    have h3 : validateSecurityCardComponent fresh (dumpNewsFeedComponent c) = none := rfl
    have h4 : validateMetricsGridComponent fresh (dumpNewsFeedComponent c) = none := rfl
    have h5 : validateEconomicIndicatorComponent fresh (dumpNewsFeedComponent c) = none := rfl
    have h6 : validatePortfolioHoldingsComponent fresh (dumpNewsFeedComponent c) = none := rfl
    have h7 : validateComparisonTableComponent fresh (dumpNewsFeedComponent c) = none := rfl
    have h8 : validateSectorPerformanceComponent fresh (dumpNewsFeedComponent c) = none := rfl
    have h9 : validateFinancialStatementComponent fresh (dumpNewsFeedComponent c) = none := rfl
    have h10 : validateTimeSeriesChartComponent fresh (dumpNewsFeedComponent c) = none := rfl
    have h11 : validateAllocationChartComponent fresh (dumpNewsFeedComponent c) = none := rfl
    simp [validateComponent, dumpComponent, h0, h1, h2, h3, h4, h5, h6, h7, h8, h9, h10, h11, validateNewsFeedComponent_dump]
  | investment_calculator c =>
    have h0 : validateTextComponent fresh (dumpInvestmentCalculatorComponent c) = none := rfl
    have h1 : validateInsightComponent fresh (dumpInvestmentCalculatorComponent c) = none := rfl
    have h2 : validateAlertComponent fresh (dumpInvestmentCalculatorComponent c) = none := rfl
    have h3 : validateSecurityCardComponent fresh (dumpInvestmentCalculatorComponent c) = none := rfl
    have h4 : validateMetricsGridComponent fresh (dumpInvestmentCalculatorComponent c) = none := rfl
    have h5 : validateEconomicIndicatorComponent fresh (dumpInvestmentCalculatorComponent c) = none := rfl
    have h6 : validatePortfolioHoldingsComponent fresh (dumpInvestmentCalculatorComponent c) = none := rfl
    have h7 : validateComparisonTableComponent fresh (dumpInvestmentCalculatorComponent c) = none := rfl
    have h8 : validateSectorPerformanceComponent fresh (dumpInvestmentCalculatorComponent c) = none := rfl
    have h9 : validateFinancialStatementComponent fresh (dumpInvestmentCalculatorComponent c) = none := rfl
    have h10 : validateTimeSeriesChartComponent fresh (dumpInvestmentCalculatorComponent c) = none := rfl
    have h11 : validateAllocationChartComponent fresh (dumpInvestmentCalculatorComponent c) = none := rfl
    have h12 : validateNewsFeedComponent fresh (dumpInvestmentCalculatorComponent c) = none := rfl
    simp [validateComponent, dumpComponent, h0, h1, h2, h3, h4, h5, h6, h7, h8, h9, h10, h11, h12, validateInvestmentCalculatorComponent_dump]
  | action_suggestions c =>
    have h0 : validateTextComponent fresh (dumpActionSuggestionsComponent c) = none := rfl
    have h1 : validateInsightComponent fresh (dumpActionSuggestionsComponent c) = none := rfl
    have h2 : validateAlertComponent fresh (dumpActionSuggestionsComponent c) = none := rfl
    have h3 : validateSecurityCardComponent fresh (dumpActionSuggestionsComponent c) = none := rfl
    have h4 : validateMetricsGridComponent fresh (dumpActionSuggestionsComponent c) = none := rfl
    have h5 : validateEconomicIndicatorComponent fresh (dumpActionSuggestionsComponent c) = none := rfl
    have h6 : validatePortfolioHoldingsComponent fresh (dumpActionSuggestionsComponent c) = none := rfl
    have h7 : validateComparisonTableComponent fresh (dumpActionSuggestionsComponent c) = none := rfl
    have h8 : validateSectorPerformanceComponent fresh (dumpActionSuggestionsComponent c) = none := rfl
    have h9 : validateFinancialStatementComponent fresh (dumpActionSuggestionsComponent c) = none := rfl
    have h10 : validateTimeSeriesChartComponent fresh (dumpActionSuggestionsComponent c) = none := rfl
    have h11 : validateAllocationChartComponent fresh (dumpActionSuggestionsComponent c) = none := rfl
    have h12 : validateNewsFeedComponent fresh (dumpActionSuggestionsComponent c) = none := rfl
    have h13 : validateInvestmentCalculatorComponent fresh (dumpActionSuggestionsComponent c) = none := rfl
    simp [validateComponent, dumpComponent, h0, h1, h2, h3, h4, h5, h6, h7, h8, h9, h10, h11, h12, h13, validateActionSuggestionsComponent_dump]

/-- models/gen_ui_models.py: GenerativeUIResponseFormat. -/
structure GenerativeUIResponseFormat where
  components : List UIComponentValue

/-- Backslash/quote escaping of a JSON string literal. -/
def escapeStr (s : String) : String :=
  (s.replace "\\" "\\\\").replace "\"" "\\\""

mutual

/-- A JSON printer standing for the stdlib `json.dumps`.  The exact textual
format (whitespace, float formatting) is immaterial to every claim: the
orchestrator stores the string opaquely, and the round-trip claims are stated
on the `Jx` values the text encodes (`json.loads` being the stdlib inverse of
`json.dumps`). -/
def renderJx : Jx → String
  | .null => "null"
  | .bool true => "true"
  | .bool false => "false"
  | .num q => toString q
  | .str s => "\"" ++ escapeStr s ++ "\""
  | .arr xs => "[" ++ renderJxList xs ++ "]"
  | .obj fs => "\x7b" ++ renderJxObj fs ++ "\x7d"

def renderJxList : List Jx → String
  | [] => ""
  | [x] => renderJx x
  | x :: xs => renderJx x ++ ", " ++ renderJxList xs

def renderJxObj : List (String × Jx) → String
  | [] => ""
  | [(k, v)] => "\"" ++ escapeStr k ++ "\": " ++ renderJx v
  | (k, v) :: fs => "\"" ++ escapeStr k ++ "\": " ++ renderJx v ++ ", " ++ renderJxObj fs

end

/-- services/agent.py: TextResponseFormat. -/
structure TextResponseFormat where
  response : String

/-- The failure modes of one orchestrated chat turn, as seen by callers of
services/chat.py: a missing session, a propagated agent/model failure (the
orchestrator does not catch it), or a propagated storage error. -/
inductive ChatError where
  | sessionNotFoundError : ChatError
  | agentFailure (e : String) : ChatError
  | storeError (e : RepoError) : ChatError
deriving DecidableEq

/-- services/chat.py: AgenticChatService.generate_text_response.
`agent` stands for `self._agent_service.generate_response(user_id,
conversation, TextResponseFormat)` — an external model round trip that either
returns a structured value or raises; `t1`/`t2` are the two
`dt.datetime.now` stamps for the persisted user and agent messages. -/
def generate_text_response (st : Store) (session_id message : String)
    (agent : String → List Message → Except String TextResponseFormat)
    (t1 t2 : String) : Store × Except ChatError String :=
  match get_session st session_id with
  | none => (st, .error .sessionNotFoundError)
  | some session =>
    let conversation := session.messages ++ [{ role := .user, content := message }]
    match agent session.user_id conversation with
    | .error e => (st, .error (.agentFailure e))
    | .ok response_model =>
      let agent_response := response_model.response
      let r1 := add_message st session_id
        { role := .user, content := message, created_at := some t1 }
      match r1.2 with
      | .error e => (r1.1, .error (.storeError e))
      | .ok _ =>
        let r2 := add_message r1.1 session_id
          { role := .agent, content := agent_response, created_at := some t2 }
        match r2.2 with
        | .error e => (r2.1, .error (.storeError e))
        | .ok _ => (r2.1, .ok agent_response)

/-- services/chat.py, generate_gen_ui_response: the string stored for the
agent turn, `json.dumps([c.model_dump() for c in response.components])`. -/
def serializeComponents (response : GenerativeUIResponseFormat) : String :=
  renderJx (.arr (response.components.map dumpComponent))

/-- services/chat.py: AgenticChatService.generate_gen_ui_response. -/
def generate_gen_ui_response (st : Store) (session_id message : String)
    (agent : String → List Message → Except String GenerativeUIResponseFormat)
    (t1 t2 : String) : Store × Except ChatError GenerativeUIResponseFormat :=
  match get_session st session_id with
  | none => (st, .error .sessionNotFoundError)
  | some session =>
    let conversation := session.messages ++ [{ role := .user, content := message }]
    match agent session.user_id conversation with
    | .error e => (st, .error (.agentFailure e))
    | .ok response =>
      let response_content_str := serializeComponents response
      let r1 := add_message st session_id
        { role := .user, content := message, created_at := some t1 }
      match r1.2 with
      | .error e => (r1.1, .error (.storeError e))
      | .ok _ =>
        let r2 := add_message r1.1 session_id
          { role := .agent, content := response_content_str, created_at := some t2 }
        match r2.2 with
        | .error e => (r2.1, .error (.storeError e))
        | .ok _ => (r2.1, .ok response)

/-- Re-reading a stored component array (the value `json.loads` recovers from
the storage string) through the union contract: elementwise pydantic
validation against GenerativeUIResponseFormat's component union. -/
def readStoredComponents (fresh : String) : Jx → Option (List UIComponentValue)
  | .arr xs => traverseOpt (validateComponent fresh) xs
  | _ => none

/-- The `Jx` value the storage string of a response encodes. -/
def storedComponentsValue (response : GenerativeUIResponseFormat) : Jx :=
  .arr (response.components.map dumpComponent)

/-- services/agent.py: the tool-call request as seen by middleware
(`request.tool_call["id"]` is the only part the error middleware reads). -/
structure ToolCallRequest where
  tool_call_id : String

/-- langchain ToolMessage, as constructed by ToolErrorMiddleware. -/
structure ToolMessage where
  content : String
  tool_call_id : String

/-- services/agent.py: ToolErrorMiddleware.awrap_tool_call.  The wrapped
handler either returns a tool message or raises (its exception text is
`str(e)`); the middleware catches every exception and turns it into an
ordinary ToolMessage, so the wrapper itself is total — no error propagates
out of it to the agent loop. -/
def awrap_tool_call (request : ToolCallRequest)
    (handler : ToolCallRequest → Except String ToolMessage) : ToolMessage :=
  match handler request with
  | .ok result => result
  | .error e =>
    { content := "Tool error: (" ++ e ++ ")", tool_call_id := request.tool_call_id }


theorem find?_pushMessage (sid : String) (m : Message) (ds : List SessionMongoDoc)
    (d : SessionMongoDoc) (h : ds.find? (fun x => x.sessionID == sid) = some d) :
    (pushMessage sid m ds).find? (fun x => x.sessionID == sid) =
      some { d with messages := d.messages ++ [m] } := by
  induction ds with
  | nil => simp at h
  | cons a as ih =>
    cases ha : (a.sessionID == sid) with
    | true =>
      simp only [List.find?_cons, ha] at h
      obtain rfl : a = d := by injection h
      simp [pushMessage, ha, List.find?_cons]
    | false =>
      simp only [List.find?_cons, ha] at h
      simp only [pushMessage, ha, Bool.false_eq_true, if_false]
      simp only [List.find?_cons, ha]
      exact ih h

theorem get_session_eq_some (st : Store) (sid : String) (s : Session)
    (h : get_session st sid = some s) :
    ∃ d, st.sessions.find? (fun x => x.sessionID == sid) = some d ∧
      s = { session_id := d.sessionID, user_id := d.user_id, messages := d.messages } := by
  unfold get_session at h
  cases hf : st.sessions.find? (fun x => x.sessionID == sid) with
  | none => rw [hf] at h; simp at h
  | some d =>
    rw [hf] at h
    exact ⟨d, rfl, by injection h with h'; exact h'.symm⟩

theorem add_message_of_get_session (st : Store) (sid : String) (s : Session) (m : Message)
    (h : get_session st sid = some s) :
    add_message st sid m =
      ({ st with sessions := pushMessage sid m st.sessions },
       .ok { s with messages := s.messages ++ [m] }) ∧
    get_session { st with sessions := pushMessage sid m st.sessions } sid =
      some { s with messages := s.messages ++ [m] } := by
  obtain ⟨d, hf, hs⟩ := get_session_eq_some st sid s h
  constructor
  · unfold add_message
    rw [h]
  · unfold get_session
    simp only [find?_pushMessage sid m st.sessions d hf]
    subst hs
    rfl

/-- The sequential fold of add_message calls used to state the append-log
property (each call's returned store feeds the next call). -/
def addMessages (st : Store) (sid : String) (msgs : List Message) : Store :=
  msgs.foldl (fun s m => (add_message s sid m).1) st

theorem get_session_addMessages (sid : String) (msgs : List Message) :
    ∀ (st : Store) (s : Session), get_session st sid = some s →
      get_session (addMessages st sid msgs) sid =
        some { s with messages := s.messages ++ msgs } := by
  induction msgs with
  | nil => intro st s h; simpa [addMessages] using h
  | cons m ms ih =>
    intro st s h
    obtain ⟨hadd, hget⟩ := add_message_of_get_session st sid s m h
    have hstep : addMessages st sid (m :: ms) =
        addMessages { st with sessions := pushMessage sid m st.sessions } sid ms := by
      simp [addMessages, hadd]
    rw [hstep]
    have := ih _ _ hget
    simpa using this

theorem lookup_beq_user_id (d : UserContextMongoDoc) (uid : String) :
    (d.lookupStr "user_id" == some uid) = (d.user_id == uid) := rfl

theorem setUserContextFields_of_find?_none (uid : String) (p : JDict)
    (pf : List UserPortfolioHolding) (now : String) (l : List UserContextMongoDoc)
    (h : l.find? (fun x => x.lookupStr "user_id" == some uid) = none) :
    setUserContextFields uid p pf now l = (l, none) := by
  induction l with
  | nil => rfl
  | cons a as ih =>
    cases ha : (a.lookupStr "user_id" == some uid) with
    | true =>
      simp only [List.find?_cons, ha] at h
      simp at h
    | false =>
      simp only [List.find?_cons, ha] at h
      have ha' : (a.user_id == uid) = false := by rw [← lookup_beq_user_id]; exact ha
      simp only [setUserContextFields, ha', Bool.false_eq_true, if_false]
      rw [ih h]

theorem setUserContextFields_of_find?_some (uid : String) (p : JDict)
    (pf : List UserPortfolioHolding) (now : String) (l : List UserContextMongoDoc)
    (d : UserContextMongoDoc)
    (h : l.find? (fun x => x.lookupStr "user_id" == some uid) = some d) :
    (setUserContextFields uid p pf now l).2 =
        some { d with user_profile := p, user_portfolio := pf, updated_at := some now } ∧
    (setUserContextFields uid p pf now l).1.find?
        (fun x => x.lookupStr "user_id" == some uid) =
      some { d with user_profile := p, user_portfolio := pf, updated_at := some now } := by
  induction l with
  | nil => simp at h
  | cons a as ih =>
    cases ha : (a.lookupStr "user_id" == some uid) with
    | true =>
      simp only [List.find?_cons, ha] at h
      obtain rfl : a = d := by injection h
      have ha' : (a.user_id == uid) = true := by rw [← lookup_beq_user_id]; exact ha
      simp only [setUserContextFields, ha', if_true]
      refine ⟨by simp, ?_⟩
      simp [List.find?_cons, UserContextMongoDoc.lookupStr, ha']
    | false =>
      simp only [List.find?_cons, ha] at h
      have ha' : (a.user_id == uid) = false := by rw [← lookup_beq_user_id]; exact ha
      simp only [setUserContextFields, ha', Bool.false_eq_true, if_false]
      obtain ⟨h1, h2⟩ := ih h
      refine ⟨h1, ?_⟩
      simp only [List.find?_cons, ha]
      exact h2

theorem find?_append_of_none {α : Type} (p : α → Bool) (l1 l2 : List α)
    (h : l1.find? p = none) : (l1 ++ l2).find? p = l2.find? p := by
  induction l1 with
  | nil => rfl
  | cons a as ih =>
    cases ha : p a with
    | true =>
      simp only [List.find?_cons, ha] at h
      simp at h
    | false =>
      simp only [List.find?_cons, ha] at h
      rw [List.cons_append, List.find?_cons, ha]
      exact ih h

/-- C1: the claim states that create_session(user_id) fails with
UserContextNotFoundError exactly when no UserContext record exists for
user_id, and in particular that after create_user_context("u1", `{"age": 28}`,
[]) succeeds, create_session("u1") succeeds.  The code violates the claim:
create_session filters the user-context collection on the field name `userid`
while create_user_context stores the key under the field name `user_id`, so
the referential check never finds the record and create_session raises
UserContextNotFoundError even though get_user_context("u1") returns the
record, as this evaluation of the embedded code shows. -/
theorem c1_create_session_referential_check_defect :
    (create_user_context ⟨[], []⟩ "u1" (some [("age", Jx.num 28)]) (some []) "t0" "t0r").2 =
      .ok { user_id := "u1", user_profile := [("age", Jx.num 28)], user_portfolio := [],
            created_at := some "t0r", updated_at := none }
  ∧ get_user_context
      (create_user_context ⟨[], []⟩ "u1" (some [("age", Jx.num 28)]) (some []) "t0" "t0r").1
      "u1" =
      some { user_id := "u1", user_profile := [("age", Jx.num 28)], user_portfolio := [],
             created_at := some "t0", updated_at := none }
  ∧ (create_session
      (create_user_context ⟨[], []⟩ "u1" (some [("age", Jx.num 28)]) (some []) "t0" "t0r").1
      "u1" none "sid-1").2 =
      .error RepoError.userContextNotFoundError :=
  ⟨rfl, rfl, rfl⟩

/-- C3: serializing the components of any GenerativeUIResponseFormat value to
the storage representation (the JSON array of component dumps) and reading it
back through the union contract yields the same number of components, each
retaining its `type` discriminator tag (in fact the components are recovered
exactly). -/
theorem c3_stored_components_roundtrip (response : GenerativeUIResponseFormat)
    (fresh : String) :
    ∃ cs, readStoredComponents fresh (storedComponentsValue response) = some cs ∧
      cs.length = response.components.length ∧
      cs.map tagOf = response.components.map tagOf := by
  refine ⟨response.components, ?_, rfl, rfl⟩
  simp [readStoredComponents, storedComponentsValue,
        traverseOpt_map (validateComponent fresh) dumpComponent (validateComponent_dump fresh)]

/-- C4 counterexample: the claim states that every component payload whose
`type` discriminator does not name a union variant (for example a crypto_card
payload) is rejected.  False: the union members declare their `type` field
with the full ComponentType enum (no per-member literal), so a crypto_card
payload carrying a member's required fields — here symbol/name/price — is
accepted, validating as a SecurityCardComponent with the crypto_card tag. -/
theorem c4_unknown_tag_payload_accepted :
    validateComponent "fresh-id"
      (.obj [("type", .str "crypto_card"), ("id", .str "c1"), ("symbol", .str "BTC"),
             ("name", .str "Bitcoin"), ("price", .num 50000)]) =
      some (.security_card
        { type := .crypto_card, id := "c1", title := none, loading := false,
          metadata := none, symbol := "BTC", name := "Bitcoin", description := none,
          price := 50000, market_cap := none, sector := none, industry := none,
          asset_type := .stock }) :=
  rfl

/-- C4 amended: a payload with an unknown-variant tag such as crypto_card or
super_investor_card is rejected only when it supplies none of the union
members' required payload fields; in particular a payload carrying only the
shared base fields (type, id, title, loading, metadata) with either of those
tags fails validation against every member. -/
theorem c4_base_only_unknown_tag_rejected (id0 : String) (title : Option String)
    (loading : Bool) (metadata : Option JDict) (fresh : String) :
    validateComponent fresh (.obj (dumpBase .crypto_card id0 title loading metadata)) = none
  ∧ validateComponent fresh
      (.obj (dumpBase .super_investor_card id0 title loading metadata)) = none :=
  ⟨rfl, rfl⟩

/-- C6: the tool-execution wrapper never propagates a handler exception: a
successful handler result is passed through, and a raised exception is turned
into an ordinary tool-result message whose content contains the error text
str(e), so the error reaches the model loop as data, not as an exception
(awrap_tool_call is total by type). -/
theorem c6_tool_error_contained (request : ToolCallRequest)
    (handler : ToolCallRequest → Except String ToolMessage) :
    (∀ result, handler request = .ok result → awrap_tool_call request handler = result)
  ∧ (∀ e, handler request = .error e →
      awrap_tool_call request handler =
        { content := "Tool error: (" ++ e ++ ")", tool_call_id := request.tool_call_id } ∧
      ∃ pre post, (awrap_tool_call request handler).content = pre ++ e ++ post) := by
  constructor
  · intro result h
    simp [awrap_tool_call, h]
  · intro e h
    refine ⟨by simp [awrap_tool_call, h], "Tool error: (", ")", by simp [awrap_tool_call, h]⟩

def demoToolRequest : ToolCallRequest := ⟨"call-1"⟩

def demoToolHandler : ToolCallRequest → Except String ToolMessage :=
  fun _ => .error "division by zero"

theorem c6_tool_error_contained_witness :
    demoToolHandler demoToolRequest = .error "division by zero"
  ∧ awrap_tool_call demoToolRequest demoToolHandler =
      { content := "Tool error: (division by zero)", tool_call_id := "call-1" }
  ∧ ∃ pre post,
      (awrap_tool_call demoToolRequest demoToolHandler).content =
        pre ++ "division by zero" ++ post := by
  refine ⟨rfl, ?_, ?_⟩
  · exact ((c6_tool_error_contained demoToolRequest demoToolHandler).2
      "division by zero" rfl).1
  · exact ((c6_tool_error_contained demoToolRequest demoToolHandler).2
      "division by zero" rfl).2

/-- C8: update_user_context on a user_id with no stored UserContext fails
with UserContextNotFoundError and performs no write — the returned store is
the unchanged input store. -/
theorem c8_update_missing_no_write (st : Store) (uid : String)
    (profile : Option JDict) (portfolio : Option (List UserPortfolioHolding))
    (now : String) (h : get_user_context st uid = none) :
    update_user_context st uid profile portfolio now =
      (st, .error .userContextNotFoundError) := by
  have hf : findUserContext st "user_id" uid = none := by
    unfold get_user_context at h
    cases hf : findUserContext st "user_id" uid with
    | none => rfl
    | some d => rw [hf] at h; simp at h
  have hset := setUserContextFields_of_find?_none uid (profile.getD [])
    (portfolio.getD []) now st.user_contexts hf
  simp [update_user_context, hset]

def demoStoreUC : Store :=
  { user_contexts := [{ user_id := "u1", user_profile := [], user_portfolio := [],
                        created_at := some "t0", updated_at := none }],
    sessions := [] }

theorem c8_update_missing_no_write_witness :
    get_user_context demoStoreUC "ghost" = none
  ∧ update_user_context demoStoreUC "ghost" (some [("age", Jx.num 30)]) none "t5" =
      (demoStoreUC, .error .userContextNotFoundError) :=
  ⟨rfl, c8_update_missing_no_write demoStoreUC "ghost" (some [("age", Jx.num 30)]) none
    "t5" rfl⟩

/-- C9: for an existing session, any finite sequence of sequential
add_message calls leaves get_session returning the prior messages followed by
the added messages in call order — none lost, none reordered. -/
theorem c9_add_message_sequence (st : Store) (sid : String) (s : Session)
    (msgs : List Message) (h : get_session st sid = some s) :
    get_session (addMessages st sid msgs) sid =
      some { s with messages := s.messages ++ msgs } :=
  get_session_addMessages sid msgs st s h

def demoStore : Store :=
  { user_contexts := [], sessions := [{ sessionID := "s1", user_id := "u1", messages := [] }] }

theorem c9_add_message_sequence_witness :
    get_session demoStore "s1" = some { session_id := "s1", user_id := "u1", messages := [] }
  ∧ get_session
      (addMessages demoStore "s1"
        [{ role := .user, content := "hi", created_at := none },
         { role := .agent, content := "hello", created_at := none }]) "s1" =
      some { session_id := "s1", user_id := "u1",
             messages := [{ role := .user, content := "hi", created_at := none },
                          { role := .agent, content := "hello", created_at := none }] } :=
  ⟨rfl, c9_add_message_sequence demoStore "s1"
    { session_id := "s1", user_id := "u1", messages := [] }
    [{ role := .user, content := "hi", created_at := none },
     { role := .agent, content := "hello", created_at := none }] rfl⟩

/-- C5: for an existing user_id, update_user_context followed by
get_user_context returns exactly the supplied profile and portfolio (with an
unsupplied argument replaced by the empty map / empty sequence, not left
unchanged), created_at equal to the stored creation timestamp, and updated_at
set to the update time; the update call itself returns the same record. -/
theorem c5_update_then_get (st : Store) (uid : String) (profile : Option JDict)
    (portfolio : Option (List UserPortfolioHolding)) (now : String) (uc : UserContext)
    (hget : get_user_context st uid = some uc) :
    ∃ st',
      update_user_context st uid profile portfolio now =
        (st', .ok { user_id := uid, user_profile := profile.getD [],
                    user_portfolio := portfolio.getD [], created_at := uc.created_at,
                    updated_at := some now }) ∧
      get_user_context st' uid =
        some { user_id := uid, user_profile := profile.getD [],
               user_portfolio := portfolio.getD [], created_at := uc.created_at,
               updated_at := some now } := by
  unfold get_user_context at hget
  cases hf : findUserContext st "user_id" uid with
  | none => rw [hf] at hget; simp at hget
  | some d =>
    rw [hf] at hget
    have huc : uc =
        { user_id := d.user_id, user_profile := d.user_profile,
          user_portfolio := d.user_portfolio, created_at := d.created_at,
          updated_at := d.updated_at } := by
      injection hget with h'
      exact h'.symm
    subst huc
    have hfind : st.user_contexts.find? (fun x => x.lookupStr "user_id" == some uid) =
        some d := hf
    have hduid : d.user_id = uid := by
      have hp := List.find?_some hfind
      rw [lookup_beq_user_id] at hp
      exact eq_of_beq hp
    obtain ⟨h1, h2⟩ := setUserContextFields_of_find?_some uid (profile.getD [])
      (portfolio.getD []) now st.user_contexts d hfind
    refine ⟨{ st with user_contexts :=
      (setUserContextFields uid (profile.getD []) (portfolio.getD [])
        now st.user_contexts).1 }, ?_, ?_⟩
    · simp [update_user_context, h1, hduid]
    · unfold get_user_context findUserContext
      simp only [h2]
      simp [hduid]

theorem c5_update_then_get_witness :
    get_user_context demoStoreUC "u1" =
      some { user_id := "u1", user_profile := [], user_portfolio := [],
             created_at := some "t0", updated_at := none }
  ∧ ∃ st',
      update_user_context demoStoreUC "u1" (some [("age", Jx.num 29)])
          (some [{ asset_class := "stock", symbol := "AAPL", name := "Apple",
                   quantity := 10 }]) "t9" =
        (st', .ok { user_id := "u1", user_profile := [("age", Jx.num 29)],
                    user_portfolio := [{ asset_class := "stock", symbol := "AAPL",
                                         name := "Apple", quantity := 10 }],
                    created_at := some "t0", updated_at := some "t9" }) ∧
      get_user_context st' "u1" =
        some { user_id := "u1", user_profile := [("age", Jx.num 29)],
               user_portfolio := [{ asset_class := "stock", symbol := "AAPL",
                                    name := "Apple", quantity := 10 }],
               created_at := some "t0", updated_at := some "t9" } :=
  ⟨rfl, c5_update_then_get demoStoreUC "u1" (some [("age", Jx.num 29)])
    (some [{ asset_class := "stock", symbol := "AAPL", name := "Apple", quantity := 10 }])
    "t9"
    { user_id := "u1", user_profile := [], user_portfolio := [],
      created_at := some "t0", updated_at := none } rfl⟩

/-- C7: once create_user_context has succeeded for a user_id, a second
sequential create_user_context call for the same user_id fails with
UserContextAlreadyExistsError and leaves the store — in particular the first
stored record — unchanged. -/
theorem c7_create_user_context_twice (st : Store) (uid : String)
    (p1 p2 : Option JDict) (pf1 pf2 : Option (List UserPortfolioHolding))
    (t1 t1r t2 t2r : String) (uc : UserContext)
    (h : (create_user_context st uid p1 pf1 t1 t1r).2 = .ok uc) :
    (create_user_context (create_user_context st uid p1 pf1 t1 t1r).1 uid p2 pf2 t2 t2r).2 =
        .error .userContextAlreadyExistsError
  ∧ (create_user_context (create_user_context st uid p1 pf1 t1 t1r).1 uid p2 pf2 t2 t2r).1 =
        (create_user_context st uid p1 pf1 t1 t1r).1 := by
  cases hf : findUserContext st "user_id" uid with
  | some d => simp [create_user_context, hf] at h
  | none =>
    have hst1 : (create_user_context st uid p1 pf1 t1 t1r).1 =
        { st with user_contexts := st.user_contexts ++
          [{ user_id := uid, user_profile := p1.getD [], user_portfolio := pf1.getD [],
             created_at := some t1, updated_at := none }] } := by
      simp [create_user_context, hf]
    have hf' : st.user_contexts.find? (fun x => x.lookupStr "user_id" == some uid) =
        none := hf
    have happ := find?_append_of_none (fun x => x.lookupStr "user_id" == some uid)
      st.user_contexts
      [{ user_id := uid, user_profile := p1.getD [], user_portfolio := pf1.getD [],
         created_at := some t1, updated_at := none }] hf'
    have hfind1 : findUserContext
        { st with user_contexts := st.user_contexts ++
          [{ user_id := uid, user_profile := p1.getD [], user_portfolio := pf1.getD [],
             created_at := some t1, updated_at := none }] } "user_id" uid =
        some { user_id := uid, user_profile := p1.getD [], user_portfolio := pf1.getD [],
               created_at := some t1, updated_at := none } := by
      unfold findUserContext
      rw [happ]
      simp [List.find?_cons, UserContextMongoDoc.lookupStr]
    constructor
    · rw [hst1]
      simp [create_user_context, hfind1]
    · rw [hst1]
      simp [create_user_context, hfind1]

theorem c7_create_user_context_twice_witness :
    (create_user_context ⟨[], []⟩ "u1" none none "t1" "t1r").2 =
      .ok { user_id := "u1", user_profile := [], user_portfolio := [],
            created_at := some "t1r", updated_at := none }
  ∧ (create_user_context (create_user_context ⟨[], []⟩ "u1" none none "t1" "t1r").1
      "u1" (some [("age", Jx.num 31)]) none "t2" "t2r").2 =
      .error .userContextAlreadyExistsError
  ∧ (create_user_context (create_user_context ⟨[], []⟩ "u1" none none "t1" "t1r").1
      "u1" (some [("age", Jx.num 31)]) none "t2" "t2r").1 =
      (create_user_context ⟨[], []⟩ "u1" none none "t1" "t1r").1 :=
  ⟨rfl,
   (c7_create_user_context_twice ⟨[], []⟩ "u1" none (some [("age", Jx.num 31)]) none none
     "t1" "t1r" "t2" "t2r"
     { user_id := "u1", user_profile := [], user_portfolio := [],
       created_at := some "t1r", updated_at := none } rfl).1,
   (c7_create_user_context_twice ⟨[], []⟩ "u1" none (some [("age", Jx.num 31)]) none none
     "t1" "t1r" "t2" "t2r"
     { user_id := "u1", user_profile := [], user_portfolio := [],
       created_at := some "t1r", updated_at := none } rfl).2⟩

/-- C10: create_session performs the duplicate-session existence check — and
can therefore raise SessionAlreadyExistsError — only when the caller supplies
a (truthy) session_id: whenever the call fails with SessionAlreadyExistsError
the caller supplied a non-empty id that already names a stored session, the
generated-id path (session_id = None) never produces
SessionAlreadyExistsError, and any session created on that path carries the
freshly generated uuid. -/
theorem c10_duplicate_check_only_for_supplied_session_id (st : Store)
    (user_id : String) (session_id : Option String) (freshId : String) :
    ((create_session st user_id session_id freshId).2 =
        .error RepoError.sessionAlreadyExistsError →
      ∃ s, session_id = some s ∧ s ≠ "" ∧ get_session st s ≠ none)
  ∧ (create_session st user_id none freshId).2 ≠
      .error RepoError.sessionAlreadyExistsError
  ∧ (∀ sess, (create_session st user_id none freshId).2 = .ok sess →
      sess.session_id = freshId) := by
  refine ⟨?_, ?_, ?_⟩
  · intro h
    cases session_id with
    | none =>
      exfalso
      cases hf : findUserContext st "userid" user_id <;>
        simp [create_session, hf] at h
    | some s =>
      by_cases hs : s = ""
      · exfalso
        subst hs
        cases hf : findUserContext st "userid" user_id <;>
          simp [create_session, hf] at h
      · cases hg : get_session st s with
        | none =>
          exfalso
          cases hf : findUserContext st "userid" user_id <;>
            simp [create_session, hs, hg, hf] at h
        | some sess0 => exact ⟨s, rfl, hs, by rw [hg]; simp⟩
  · intro h
    cases hf : findUserContext st "userid" user_id <;>
      simp [create_session, hf] at h
  · intro sess h
    cases hf : findUserContext st "userid" user_id <;>
      simp [create_session, hf] at h
    rw [← h]

theorem c10_duplicate_check_witness :
    (create_session demoStore "u1" (some "s1") "fresh-1").2 =
      .error RepoError.sessionAlreadyExistsError
  ∧ (∃ s, (some "s1" : Option String) = some s ∧ s ≠ "" ∧ get_session demoStore s ≠ none)
  ∧ (create_session demoStore "u1" none "fresh-1").2 ≠
      .error RepoError.sessionAlreadyExistsError :=
  ⟨rfl,
   (c10_duplicate_check_only_for_supplied_session_id demoStore "u1" (some "s1") "fresh-1").1
     rfl,
   (c10_duplicate_check_only_for_supplied_session_id demoStore "u1" none "fresh-1").2.1⟩

/-- C2: both orchestrator entry points write to the durable session log only
after the agent call returns successfully: if the agent call raises, the
returned store is the unchanged input store (no message appended); if it
succeeds, exactly two messages are appended — the user's message first, the
agent's reply second (for the generative-UI turn, the reply stored as the
serialized component string). -/
theorem c2_persist_only_after_generation (st : Store) (session_id message : String)
    (s : Session) (t1 t2 : String) (hs : get_session st session_id = some s) :
    (∀ (agent : String → List Message → Except String TextResponseFormat) (e : String),
        agent s.user_id (s.messages ++ [{ role := .user, content := message }]) = .error e →
        generate_text_response st session_id message agent t1 t2 =
          (st, .error (.agentFailure e)))
  ∧ (∀ (agent : String → List Message → Except String TextResponseFormat)
        (r : TextResponseFormat),
        agent s.user_id (s.messages ++ [{ role := .user, content := message }]) = .ok r →
        ∃ st', generate_text_response st session_id message agent t1 t2 =
            (st', .ok r.response) ∧
          get_session st' session_id =
            some { s with messages := s.messages ++
              [{ role := .user, content := message, created_at := some t1 },
               { role := .agent, content := r.response, created_at := some t2 }] })
  ∧ (∀ (agent : String → List Message → Except String GenerativeUIResponseFormat)
        (e : String),
        agent s.user_id (s.messages ++ [{ role := .user, content := message }]) = .error e →
        generate_gen_ui_response st session_id message agent t1 t2 =
          (st, .error (.agentFailure e)))
  ∧ (∀ (agent : String → List Message → Except String GenerativeUIResponseFormat)
        (r : GenerativeUIResponseFormat),
        agent s.user_id (s.messages ++ [{ role := .user, content := message }]) = .ok r →
        ∃ st', generate_gen_ui_response st session_id message agent t1 t2 =
            (st', .ok r) ∧
          get_session st' session_id =
            some { s with messages := s.messages ++
              [{ role := .user, content := message, created_at := some t1 },
               { role := .agent, content := serializeComponents r,
                 created_at := some t2 }] }) := by
  refine ⟨?_, ?_, ?_, ?_⟩
  · intro agent e ha
    simp [generate_text_response, hs, ha]
  · intro agent r ha
    obtain ⟨hadd1, hget1⟩ := add_message_of_get_session st session_id s
      { role := .user, content := message, created_at := some t1 } hs
    obtain ⟨hadd2, hget2⟩ := add_message_of_get_session _ session_id _
      { role := .agent, content := r.response, created_at := some t2 } hget1
    refine
      ⟨{ st with
           sessions := pushMessage session_id
             { role := .agent, content := r.response, created_at := some t2 }
             (pushMessage session_id
               { role := .user, content := message, created_at := some t1 } st.sessions) },
       ?_, ?_⟩
    · simp [generate_text_response, hs, ha, hadd1, hadd2]
    · simpa using hget2
  · intro agent e ha
    simp [generate_gen_ui_response, hs, ha]
  · intro agent r ha
    obtain ⟨hadd1, hget1⟩ := add_message_of_get_session st session_id s
      { role := .user, content := message, created_at := some t1 } hs
    obtain ⟨hadd2, hget2⟩ := add_message_of_get_session _ session_id _
      { role := .agent, content := serializeComponents r, created_at := some t2 } hget1
    refine
      ⟨{ st with
           sessions := pushMessage session_id
             { role := .agent, content := serializeComponents r, created_at := some t2 }
             (pushMessage session_id
               { role := .user, content := message, created_at := some t1 } st.sessions) },
       ?_, ?_⟩
    · simp [generate_gen_ui_response, hs, ha, hadd1, hadd2]
    · simpa using hget2

def demoAgentText : String → List Message → Except String TextResponseFormat :=
  fun _ _ => .ok { response := "hi" }

def demoAgentUI : String → List Message → Except String GenerativeUIResponseFormat :=
  fun _ _ => .ok { components := [] }

def demoAgentTextErr : String → List Message → Except String TextResponseFormat :=
  fun _ _ => .error "boom"

theorem c2_persist_only_after_generation_witness :
    get_session demoStore "s1" =
      some { session_id := "s1", user_id := "u1", messages := [] }
  ∧ generate_text_response demoStore "s1" "hello" demoAgentTextErr "t1" "t2" =
      (demoStore, .error (.agentFailure "boom"))
  ∧ (∃ st', generate_text_response demoStore "s1" "hello" demoAgentText "t1" "t2" =
        (st', .ok "hi") ∧
      get_session st' "s1" =
        some { session_id := "s1", user_id := "u1",
               messages := [{ role := .user, content := "hello", created_at := some "t1" },
                            { role := .agent, content := "hi", created_at := some "t2" }] })
  ∧ ∃ st', generate_gen_ui_response demoStore "s1" "hello" demoAgentUI "t1" "t2" =
        (st', .ok { components := [] }) ∧
      get_session st' "s1" =
        some { session_id := "s1", user_id := "u1",
               messages := [{ role := .user, content := "hello", created_at := some "t1" },
                            { role := .agent,
                              content := serializeComponents { components := [] },
                              created_at := some "t2" }] } :=
  ⟨rfl,
   (c2_persist_only_after_generation demoStore "s1" "hello"
     { session_id := "s1", user_id := "u1", messages := [] } "t1" "t2" rfl).1
     demoAgentTextErr "boom" rfl,
   (c2_persist_only_after_generation demoStore "s1" "hello"
     { session_id := "s1", user_id := "u1", messages := [] } "t1" "t2" rfl).2.1
     demoAgentText { response := "hi" } rfl,
   (c2_persist_only_after_generation demoStore "s1" "hello"
     { session_id := "s1", user_id := "u1", messages := [] } "t1" "t2" rfl).2.2.2
     demoAgentUI { components := [] } rfl⟩
